import Mathlib

/-!
SCMI mailbox transport of `gpu_clk_enable.c`.

A shallow embedding of `src/modules/gpu_clk_enable.c`: the header macro `SCMI_HDR`,
the request/response exchange `scmi_send` and the sequencer `gpu_clk_enable_init`.

The shared-memory channel is memory-mapped I/O owned by a remote processor, so a
read is not determined by the program alone.  The channel is therefore an arbitrary
function of the history of everything the module did so far (`Chan`), and the
module's functions thread that history (`List Event`) explicitly.  `udelay` has no
effect on the history and is left out.

Integer conventions: `u8`/`u32` values are naturals (inputs are assumed to fit their
type, values read from the channel are truncated to 32 bits by `readl`), `int`
values are integers, and `int` arithmetic wraps modulo `2^32` (`to_s32`): kernel
modules are built with `-fno-strict-overflow`.  Conversions between `int` and `u32`
are explicit (`to_u32`, `to_s32`).
-/

namespace GpuClkEnable

/-! ## Constants -/

/-- The constant `SHMEM_SIZE`. -/
def SHMEM_SIZE : Int := 0x100
/-- The constant `SHMEM_CHAN_STATUS`. -/
def SHMEM_CHAN_STATUS : Int := 0x04
/-- The constant `SHMEM_FLAGS`. -/
def SHMEM_FLAGS : Int := 0x10
/-- The constant `SHMEM_LENGTH`. -/
def SHMEM_LENGTH : Int := 0x14
/-- The constant `SHMEM_HEADER`. -/
def SHMEM_HEADER : Int := 0x18
/-- The constant `SHMEM_PAYLOAD`. -/
def SHMEM_PAYLOAD : Int := 0x1C
/-- The constant `SHMEM_DOORBELL`. -/
def SHMEM_DOORBELL : Int := 0x80

/-- The constant `SCMI_PROTO_CLOCK`. -/
def SCMI_PROTO_CLOCK : Nat := 0x14
/-- The constant `SCMI_CLK_CONFIG_SET`. -/
def SCMI_CLK_CONFIG_SET : Nat := 0x07
/-- The constant `SCMI_CLK_RATE_GET`. -/
def SCMI_CLK_RATE_GET : Nat := 0x06

/-- The kernel's `ETIMEDOUT` (errno 110); the header that defines it is not part of
the repository. -/
def ETIMEDOUT : Int := 110
/-- The kernel's `EIO` (errno 5). -/
def EIO : Int := 5

/-- The macro `SCMI_HDR(proto, msg_id, seq)`:
`(((proto) << 10) | ((msg_id) << 0) | ((seq) << 18))`. -/
def SCMI_HDR (proto msg_id seq : Nat) : Nat :=
  (proto <<< 10) ||| (msg_id <<< 0) ||| (seq <<< 18)

/-- The constant `gpu_clk_ids`. -/
def gpu_clk_ids : List Nat := [30, 31, 32, 230, 231, 272]

/-- The constant `gpu_clk_names`. -/
def gpu_clk_names : List String :=
  ["gpuclk_400M", "gpu_top", "gpu_core", "gpupll_top", "gpupll_core", "gpuclk_200M"]

/-! ## Machine integers -/

/-- Conversion of an integer to `u32`. -/
def to_u32 (x : Int) : Nat := (x % 4294967296).toNat

/-- Conversion of an integer to `int` (two's complement, 32 bits). -/
def to_s32 (x : Int) : Int := (x + 2147483648) % 4294967296 - 2147483648

/-- The `int` product `a * b`. -/
def int_mul (a b : Int) : Int := to_s32 (a * b)

/-- The `int` sum `a + b`. -/
def int_add (a b : Int) : Int := to_s32 (a + b)

/-- The `u32` difference `a - b`. -/
def u32_sub (a b : Nat) : Nat := (a + 4294967296 - b % 4294967296) % 4294967296

/-! ## Events and the channel -/

/-- The lines the module prints. -/
inductive Log where
  /-- prints `pr_err("gpu_clk: channel busy timeout\n")` -/
  | busy_timeout
  /-- prints `pr_err("gpu_clk: response timeout\n")` -/
  | response_timeout
  /-- prints `pr_err("gpu_clk: failed to map shmem\n")` -/
  | map_failed
  /-- prints `pr_info("gpu_clk: shmem mapped, chan_status=0x%x\n", ...)` -/
  | mapped (chan_status : Nat)
  /-- prints `pr_info("gpu_clk: clock %u (%s) CONFIG_SET → status=%d\n", ...)` -/
  | config_set (clk : Nat) (name : String) (status : Int)
  /-- prints `pr_warn("gpu_clk:   FAILED (status=%d)\n", ret)` -/
  | failed (status : Int)
  /-- prints `pr_info("gpu_clk: clock %u (%s) rate = %llu Hz\n", ...)` -/
  | rate (clk : Nat) (name : String) (hz : Nat)
  /-- prints `pr_info("gpu_clk: clock %u rate_get status=%d\n", ...)` -/
  | rate_get_status (clk : Nat) (status : Int)
  /-- prints `pr_info("gpu_clk: done\n")` -/
  | done
  deriving DecidableEq, Repr

/-- What the module does that is visible from outside, in program order.  Offsets
are relative to the mapped base `shmem`. -/
inductive Event where
  /-- the load `readl(shmem + off)` returned `val` -/
  | readl (off : Int) (val : Nat)
  /-- the store `writel(val, shmem + off)` -/
  | writel (val : Nat) (off : Int)
  /-- a printed line -/
  | log (m : Log)
  /-- entry of `scmi_send(proto, msg_id, payload, payload_words, ...)`; `payload`
  lists the `payload_words` words the pointer refers to -/
  | call (proto msg_id : Nat) (payload : List Nat) (payload_words : Int)
  deriving DecidableEq, Repr

/-- The remote side of the channel: the value a 32-bit load at an offset returns,
given everything that happened before. -/
abbrev Chan := List Event → Int → Nat

/-- The 32-bit load `readl(shmem + off)` after the history `tr`. -/
def readl (chan : Chan) (tr : List Event) (off : Int) : Nat :=
  chan tr off % 4294967296

/-! ## `scmi_send` -/

/-- The loop `while (cond(readl(shmem + SHMEM_CHAN_STATUS)) && --timeout) udelay(10);`
for a positive `timeout`; returns the final `timeout` and the history.  Both callers
start it from a positive constant, the clause for `0` is never reached. -/
def wait_while (chan : Chan) (cond : Nat → Bool) : Nat → List Event → Nat × List Event
  | 0, tr => (0, tr)
  | timeout + 1, tr =>
    let v := readl chan tr SHMEM_CHAN_STATUS
    let tr1 := tr ++ [Event.readl SHMEM_CHAN_STATUS v]
    if cond v then
      if timeout = 0 then (0, tr1) else wait_while chan cond timeout tr1
    else (timeout + 1, tr1)

/-- The condition `readl(...) & 1` of the channel-free wait. -/
def chan_busy (v : Nat) : Bool := v &&& 1 != 0

/-- The condition `!(readl(...) & 1)` of the response wait. -/
def chan_not_ready (v : Nat) : Bool := v &&& 1 == 0

/-- The address offset `SHMEM_PAYLOAD + i * 4` with `i * 4` computed in `int`. -/
def payload_off (i : Nat) : Int := SHMEM_PAYLOAD + int_mul i 4

/-- The loop `for (int i = 0; i < payload_words; i++) writel(payload[i], shmem +
SHMEM_PAYLOAD + i * 4);` with `k` iterations left, starting at index `i`. -/
def write_payload (payload : Nat → Nat) : Nat → Nat → List Event → List Event
  | 0, _, tr => tr
  | k + 1, i, tr =>
    write_payload payload k (i + 1) (tr ++ [Event.writel (payload i) (payload_off i)])

/-- The loop `for (int i = 0; i < len; i++) response[i] = readl(shmem +
SHMEM_PAYLOAD + i * 4);` with `k` iterations left, starting at index `i`. -/
def read_response (chan : Chan) :
    Nat → Nat → (Nat → Nat) → List Event → (Nat → Nat) × List Event
  | 0, _, response, tr => (response, tr)
  | k + 1, i, response, tr =>
    let v := readl chan tr (payload_off i)
    read_response chan k (i + 1) (Function.update response i v)
      (tr ++ [Event.readl (payload_off i) v])

/-- What a call of `scmi_send` leaves behind. -/
structure SendResult where
  /-- the returned `int` -/
  ret : Int
  /-- the caller's `response` buffer (`none` for a null pointer) -/
  response : Option (Nat → Nat)
  /-- the caller's `*resp_words` (`none` for a null pointer) -/
  resp_words : Option Int
  /-- the history -/
  trace : List Event

/-- The word count of lines 94-96 for the length field `l` and the capacity `cap`:
`int len = (l - 4) / 4;` computed in `u32`, then `if (len > cap) len = cap;`. -/
def clamped_len (l : Nat) (cap : Int) : Int :=
  let len : Int := to_s32 (u32_sub l 4 / 4 : Nat)
  if len > cap then cap else len

/-- The response part of `scmi_send`, lines 91-102, entered after both waits. -/
def read_reply (chan : Chan) (response : Option (Nat → Nat)) (resp_words : Option Int)
    (tr : List Event) : SendResult :=
  let status := readl chan tr SHMEM_PAYLOAD
  let tr1 := tr ++ [Event.readl SHMEM_PAYLOAD status]
  match response, resp_words with
  | some buf, some cap =>
    let l := readl chan tr1 SHMEM_LENGTH
    let tr2 := tr1 ++ [Event.readl SHMEM_LENGTH l]
    let len := clamped_len l cap
    let r := read_response chan len.toNat 0 buf tr2
    { ret := to_s32 status, response := some r.1, resp_words := some len, trace := r.2 }
  | _, _ =>
    { ret := to_s32 status, response := response, resp_words := resp_words, trace := tr1 }

/-- The request part of `scmi_send`, lines 71-80: flags, length, header, payload,
doorbell. -/
def write_request (proto msg_id : Nat) (payload : Nat → Nat) (payload_words : Int)
    (tr : List Event) : List Event :=
  let hdr := SCMI_HDR proto msg_id 0
  let tr1 := tr ++ [Event.writel 0 SHMEM_FLAGS]
  let tr2 := tr1 ++ [Event.writel (to_u32 (int_add 4 (int_mul payload_words 4))) SHMEM_LENGTH]
  let tr3 := tr2 ++ [Event.writel hdr SHMEM_HEADER]
  let tr4 := write_payload payload payload_words.toNat 0 tr3
  tr4 ++ [Event.writel 1 SHMEM_DOORBELL]

/-- The words `payload[0 .. payload_words - 1]`. -/
def payload_list (payload : Nat → Nat) (payload_words : Int) : List Nat :=
  (List.range payload_words.toNat).map payload

/-- The function `scmi_send(proto, msg_id, payload, payload_words, response,
resp_words)` run after the history `tr`.  `payload` gives the word `payload[i]` for
each index, `response` and `resp_words` are `none` for null pointers.  The entry of
the call is itself recorded in the history (`Event.call`), so that the calls a caller
makes can be observed; the rest follows the source line by line. -/
def scmi_send (chan : Chan) (proto msg_id : Nat) (payload : Nat → Nat)
    (payload_words : Int) (response : Option (Nat → Nat)) (resp_words : Option Int)
    (tr : List Event) : SendResult :=
  let tr0 := tr ++ [Event.call proto msg_id (payload_list payload payload_words) payload_words]
  let w1 := wait_while chan chan_busy 10000 tr0
  if w1.1 = 0 then
    { ret := -ETIMEDOUT, response := response, resp_words := resp_words,
      trace := w1.2 ++ [Event.log Log.busy_timeout] }
  else
    let tr1 := write_request proto msg_id payload payload_words w1.2
    let w2 := wait_while chan chan_not_ready 100000 tr1
    if w2.1 = 0 then
      { ret := -ETIMEDOUT, response := response, resp_words := resp_words,
        trace := w2.2 ++ [Event.log Log.response_timeout] }
    else
      read_reply chan response resp_words w2.2

/-! ## `gpu_clk_enable_init` -/

/-- The locals of `gpu_clk_enable_init` that live across calls, and the history. -/
structure InitState where
  /-- the array `u32 payload[2]` -/
  payload : Nat → Nat
  /-- the array `u32 resp[4]` -/
  resp : Nat → Nat
  /-- the history -/
  trace : List Event

/-- The call of lines 122-126: `payload[0] = clk; payload[1] = 1;` and
`scmi_send(SCMI_PROTO_CLOCK, SCMI_CLK_CONFIG_SET, payload, 2, resp, &(int){4})`. -/
def config_call (chan : Chan) (clk : Nat) (s : InitState) : SendResult :=
  scmi_send chan SCMI_PROTO_CLOCK SCMI_CLK_CONFIG_SET
    (Function.update (Function.update s.payload 0 clk) 1 1) 2 (some s.resp) (some 4) s.trace

/-- One iteration of the first loop (lines 120-135) for the clock `clk`. -/
def config_step (chan : Chan) (clk : Nat) (name : String) (s : InitState) : InitState :=
  let r := config_call chan clk s
  let tr1 := r.trace ++ [Event.log (Log.config_set clk name r.ret)]
  let tr2 := if r.ret ≠ 0 then tr1 ++ [Event.log (Log.failed r.ret)] else tr1
  { payload := Function.update (Function.update s.payload 0 clk) 1 1,
    resp := r.response.getD s.resp, trace := tr2 }

/-- The rate `((u64)resp[2] << 32) | resp[1]`. -/
def rate_of (resp : Nat → Nat) : Nat :=
  ((resp 2 <<< 32) % 18446744073709551616) ||| resp 1

/-- The call of lines 139-142: `payload[0] = clk; resp_words = 4;` and
`scmi_send(SCMI_PROTO_CLOCK, SCMI_CLK_RATE_GET, payload, 1, resp, &resp_words)`. -/
def rate_call (chan : Chan) (clk : Nat) (s : InitState) : SendResult :=
  scmi_send chan SCMI_PROTO_CLOCK SCMI_CLK_RATE_GET
    (Function.update s.payload 0 clk) 1 (some s.resp) (some 4) s.trace

/-- One iteration of the second loop (lines 138-151) for the clock `clk`. -/
def rate_step (chan : Chan) (clk : Nat) (name : String) (s : InitState) : InitState :=
  let r := rate_call chan clk s
  let resp := r.response.getD s.resp
  let resp_words := r.resp_words.getD 4
  let tr1 :=
    if r.ret = 0 ∧ resp_words ≥ 3 then
      r.trace ++ [Event.log (Log.rate clk name (rate_of resp))]
    else
      r.trace ++ [Event.log (Log.rate_get_status clk r.ret)]
  { payload := Function.update s.payload 0 clk, resp := resp, trace := tr1 }

/-- The first loop over the clock table. -/
def config_pass (chan : Chan) : List (Nat × String) → InitState → InitState
  | [], s => s
  | (clk, name) :: rest, s => config_pass chan rest (config_step chan clk name s)

/-- The second loop over the clock table. -/
def rate_pass (chan : Chan) : List (Nat × String) → InitState → InitState
  | [], s => s
  | (clk, name) :: rest, s => rate_pass chan rest (rate_step chan clk name s)

/-- The function `gpu_clk_enable_init()`: `map_ok` tells whether `ioremap` returned a
mapping, `payload0` and `resp0` are the uninitialised contents of the two local
arrays.  Returns the `int` result and the history (`udelay` and `iounmap` leave no
event). -/
def gpu_clk_enable_init (chan : Chan) (map_ok : Bool) (payload0 resp0 : Nat → Nat) :
    Int × List Event :=
  if map_ok then
    let v := readl chan [] SHMEM_CHAN_STATUS
    let s0 : InitState :=
      { payload := payload0, resp := resp0,
        trace := [Event.readl SHMEM_CHAN_STATUS v, Event.log (Log.mapped v)] }
    let clocks := gpu_clk_ids.zip gpu_clk_names
    let s1 := config_pass chan clocks s0
    let s2 := rate_pass chan clocks s1
    (0, s2.trace ++ [Event.log Log.done])
  else
    (- EIO, [Event.log Log.map_failed])

/-! ## Observers of a history -/

/-- The stores to the channel, as `(offset, value)`. -/
def writes (tr : List Event) : List (Int × Nat) :=
  tr.filterMap fun e => match e with
    | Event.writel v off => some (off, v)
    | _ => none

/-- The loads from the channel, as `(offset, value)`. -/
def reads (tr : List Event) : List (Int × Nat) :=
  tr.filterMap fun e => match e with
    | Event.readl off v => some (off, v)
    | _ => none

/-- The printed lines. -/
def logs (tr : List Event) : List Log :=
  tr.filterMap fun e => match e with
    | Event.log m => some m
    | _ => none

/-- The `scmi_send` calls, as `(proto, msg_id, payload words, payload_words)`. -/
def calls (tr : List Event) : List (Nat × Nat × List Nat × Int) :=
  tr.filterMap fun e => match e with
    | Event.call p m ws n => some (p, m, ws, n)
    | _ => none

/-- The first `k` loads of `channel_status` a polling loop performs after the
history `tr`, as long as it keeps polling. -/
def polls (chan : Chan) : Nat → List Event → List Event
  | 0, _ => []
  | k + 1, tr =>
    let e := Event.readl SHMEM_CHAN_STATUS (readl chan tr SHMEM_CHAN_STATUS)
    e :: polls chan k (tr ++ [e])

/-! ## Phases of a call -/

/-- The history at the entry of a call: the call itself is recorded. -/
def entry (proto msg_id : Nat) (payload : Nat → Nat) (payload_words : Int)
    (tr : List Event) : List Event :=
  tr ++ [Event.call proto msg_id (payload_list payload payload_words) payload_words]

/-- The channel-free wait of a call (lines 62-65): final counter and history. -/
def free_wait (chan : Chan) (proto msg_id : Nat) (payload : Nat → Nat) (payload_words : Int)
    (tr : List Event) : Nat × List Event :=
  wait_while chan chan_busy 10000 (entry proto msg_id payload payload_words tr)

/-- The history of a call up to and including the doorbell (lines 62-80). -/
def rung (chan : Chan) (proto msg_id : Nat) (payload : Nat → Nat) (payload_words : Int)
    (tr : List Event) : List Event :=
  write_request proto msg_id payload payload_words
    (free_wait chan proto msg_id payload payload_words tr).2

/-- The response wait of a call (lines 83-85): final counter and history. -/
def response_wait (chan : Chan) (proto msg_id : Nat) (payload : Nat → Nat)
    (payload_words : Int) (tr : List Event) : Nat × List Event :=
  wait_while chan chan_not_ready 100000 (rung chan proto msg_id payload payload_words tr)

/-- A call is completed when neither wait runs out. -/
def completed (chan : Chan) (proto msg_id : Nat) (payload : Nat → Nat) (payload_words : Int)
    (tr : List Event) : Prop :=
  (free_wait chan proto msg_id payload payload_words tr).1 ≠ 0 ∧
    (response_wait chan proto msg_id payload payload_words tr).1 ≠ 0

instance (chan : Chan) (proto msg_id : Nat) (payload : Nat → Nat) (payload_words : Int)
    (tr : List Event) : Decidable (completed chan proto msg_id payload payload_words tr) :=
  inferInstanceAs (Decidable (_ ∧ _))

/-- The status word of a completed call: the load from the payload offset that
follows the response wait. -/
def status_word (chan : Chan) (proto msg_id : Nat) (payload : Nat → Nat) (payload_words : Int)
    (tr : List Event) : Nat :=
  readl chan (response_wait chan proto msg_id payload payload_words tr).2 SHMEM_PAYLOAD

/-- The history of a completed call after the status word has been loaded. -/
def after_status (chan : Chan) (proto msg_id : Nat) (payload : Nat → Nat)
    (payload_words : Int) (tr : List Event) : List Event :=
  (response_wait chan proto msg_id payload payload_words tr).2 ++
    [Event.readl SHMEM_PAYLOAD (status_word chan proto msg_id payload payload_words tr)]

/-- The length field a completed call with a response buffer loads. -/
def length_field (chan : Chan) (proto msg_id : Nat) (payload : Nat → Nat)
    (payload_words : Int) (tr : List Event) : Nat :=
  readl chan (after_status chan proto msg_id payload payload_words tr) SHMEM_LENGTH

/-- The history of a completed call with a response buffer when the copy loop
starts. -/
def before_copy (chan : Chan) (proto msg_id : Nat) (payload : Nat → Nat)
    (payload_words : Int) (tr : List Event) : List Event :=
  after_status chan proto msg_id payload payload_words tr ++
    [Event.readl SHMEM_LENGTH (length_field chan proto msg_id payload payload_words tr)]

/-- The number of words the copy loop of a completed call transfers when the
caller's capacity is `c`. -/
def stored_count (chan : Chan) (proto msg_id : Nat) (payload : Nat → Nat)
    (payload_words : Int) (c : Int) (tr : List Event) : Nat :=
  (clamped_len (length_field chan proto msg_id payload payload_words tr) c).toNat

/-- The stores of a request as the specification lists them: flags, length, header,
payload words in increasing order, doorbell. -/
def request_writes (proto msg_id : Nat) (payload : Nat → Nat) (n : Nat) : List (Int × Nat) :=
  [(SHMEM_FLAGS, 0), (SHMEM_LENGTH, 4 + 4 * n), (SHMEM_HEADER, SCMI_HDR proto msg_id 0)] ++
    (List.range n).map (fun (i : Nat) => (SHMEM_PAYLOAD + 4 * (i : Int), payload i)) ++
    [(SHMEM_DOORBELL, 1)]

/-- The stores of a request as the code issues them, with the offsets and the
length computed in `int`. -/
def request_stores (proto msg_id : Nat) (payload : Nat → Nat) (payload_words : Int) :
    List (Int × Nat) :=
  [(SHMEM_FLAGS, 0), (SHMEM_LENGTH, to_u32 (int_add 4 (int_mul payload_words 4))),
    (SHMEM_HEADER, SCMI_HDR proto msg_id 0)] ++
    (List.range payload_words.toNat).map (fun i => (payload_off i, payload i)) ++
    [(SHMEM_DOORBELL, 1)]

/-- The lines one iteration of the first loop prints for a clock whose command
returned `ret`. -/
def config_report (clock : Nat × String) (ret : Int) : List Log :=
  Log.config_set clock.1 clock.2 ret :: (if ret ≠ 0 then [Log.failed ret] else [])

/-- The lines of a history that the first loop prints. -/
def config_lines (tr : List Event) : List Log :=
  (logs tr).filter fun m => match m with
    | Log.config_set _ _ _ => true
    | Log.failed _ => true
    | _ => false

/-- The locals and the history of a mapped `gpu_clk_enable_init` run when the first
loop has finished `k` iterations (`k = 0`: right after the `shmem mapped` line). -/
def config_state (chan : Chan) (payload0 resp0 : Nat → Nat) (k : Nat) : InitState :=
  config_pass chan ((gpu_clk_ids.zip gpu_clk_names).take k)
    { payload := payload0, resp := resp0,
      trace := [Event.readl SHMEM_CHAN_STATUS (readl chan [] SHMEM_CHAN_STATUS),
        Event.log (Log.mapped (readl chan [] SHMEM_CHAN_STATUS))] }

/-! ## Test channels -/

/-- The value of the most recent store to `off` in a history (`0` if none). -/
def last_write (off : Int) (tr : List Event) : Nat :=
  match (writes tr).reverse.find? (fun p => p.1 = off) with
  | some p => p.2
  | none => 0

/-- A fake firmware: the channel is free until the doorbell is rung and the response
is ready right after; `reply header word0` gives the length field and the payload
words it answers to the request last written. -/
def fw_chan (reply : Nat → Nat → Nat × List Nat) : Chan := fun tr off =>
  if off = SHMEM_CHAN_STATUS then
    (if tr.getLast? = some (Event.writel 1 SHMEM_DOORBELL) then 1 else 0)
  else if off = SHMEM_LENGTH then
    (reply (last_write SHMEM_HEADER tr) (last_write SHMEM_PAYLOAD tr)).1
  else
    (reply (last_write SHMEM_HEADER tr) (last_write SHMEM_PAYLOAD tr)).2.getD
      ((off - SHMEM_PAYLOAD) / 4).toNat 0

/-- A fake firmware that answers every request with the length field `len` and
the payload words `words`. -/
def fake_chan (len : Nat) (words : List Nat) : Chan := fw_chan fun _ _ => (len, words)

/-- A fake firmware that fails the configure command of clock 31 with status `2`
and answers everything else with status `0` and the rate words `0x40000000`, `1`. -/
def clock31_chan : Chan := fw_chan fun header word0 =>
  if header = SCMI_HDR SCMI_PROTO_CLOCK SCMI_CLK_CONFIG_SET 0 ∧ word0 = 31 then (8, [2])
  else (16, [0, 0x40000000, 1])

/-- A channel whose first payload word reads `0` when loaded as the status and `7`
when loaded again by the copy loop (right after the length field). -/
def unstable_chan : Chan := fun tr off =>
  if off = SHMEM_CHAN_STATUS then
    (if tr.getLast? = some (Event.writel 1 SHMEM_DOORBELL) then 1 else 0)
  else if off = SHMEM_LENGTH then 8
  else if tr.getLast? = some (Event.readl SHMEM_LENGTH 8) then 7 else 0

/-- A channel on which every load returns `0`: always free, never ready. -/
def idle_chan : Chan := fun _ _ => 0

/-- A channel on which every load returns `1`: never free. -/
def stuck_chan : Chan := fun _ _ => 1

/-- The `k` stores of the payload loop from index `i` on. -/
def payload_events (payload : Nat → Nat) (i k : Nat) : List Event :=
  (List.range' i k).map fun j => Event.writel (payload j) (payload_off j)

/-- The `k` loads of the copy loop from index `i` on, after the history `tr`. -/
def copy_events (chan : Chan) : Nat → Nat → List Event → List Event
  | 0, _, _ => []
  | k + 1, i, tr =>
    let e := Event.readl (payload_off i) (readl chan tr (payload_off i))
    e :: copy_events chan k (i + 1) (tr ++ [e])

/-! ## Machine integer lemmas -/

theorem to_s32_id {x : Int} (h1 : -2147483648 ≤ x) (h2 : x < 2147483648) : to_s32 x = x := by
  unfold to_s32; omega

theorem payload_off_small {i : Nat} (h : i < 536870912) : payload_off i = 28 + 4 * (i : Int) := by
  unfold payload_off int_mul to_s32 SHMEM_PAYLOAD; omega

theorem length_word (n : Nat) :
    to_u32 (int_add 4 (int_mul (n : Int) 4)) = (4 + 4 * n) % 4294967296 := by
  unfold to_u32 int_add int_mul to_s32; omega

theorem readl_lt (chan : Chan) (tr : List Event) (off : Int) : readl chan tr off < 4294967296 := by
  unfold readl; omega

theorem chan_busy_iff (v : Nat) : chan_busy v = true ↔ v % 2 = 1 := by
  unfold chan_busy; rw [Nat.and_one_is_mod]; simp

theorem chan_not_ready_iff (v : Nat) : chan_not_ready v = true ↔ v % 2 = 0 := by
  unfold chan_not_ready; rw [Nat.and_one_is_mod]; simp

/-! ## The polling loop -/

theorem polls_length (chan : Chan) (k : Nat) (tr : List Event) :
    (polls chan k tr).length = k := by
  induction k generalizing tr with
  | zero => rfl
  | succ k ih => simp [polls, ih]

theorem polls_mem (chan : Chan) (k : Nat) (tr : List Event) (e : Event)
    (he : e ∈ polls chan k tr) : ∃ v, e = Event.readl SHMEM_CHAN_STATUS v := by
  induction k generalizing tr with
  | zero => simp [polls] at he
  | succ k ih =>
    simp only [polls, List.mem_cons] at he
    rcases he with he | he
    · exact ⟨_, he⟩
    · exact ih _ he

theorem polls_succ_append (chan : Chan) (k : Nat) (tr : List Event) :
    tr ++ polls chan (k + 1) tr =
      (tr ++ [Event.readl SHMEM_CHAN_STATUS (readl chan tr SHMEM_CHAN_STATUS)]) ++
        polls chan k (tr ++ [Event.readl SHMEM_CHAN_STATUS (readl chan tr SHMEM_CHAN_STATUS)]) := by
  simp [polls]

/-- If the condition holds on each of the `t` loads, the loop runs out: the counter
ends at `0` after exactly `t` loads. -/
theorem wait_while_timeout (chan : Chan) (cond : Nat → Bool) (t : Nat) (tr : List Event)
    (ht : 0 < t)
    (h : ∀ j, j < t → cond (readl chan (tr ++ polls chan j tr) SHMEM_CHAN_STATUS) = true) :
    wait_while chan cond t tr = (0, tr ++ polls chan t tr) := by
  induction t generalizing tr with
  | zero => omega
  | succ t ih =>
    have h0 : cond (readl chan tr SHMEM_CHAN_STATUS) = true := by
      have := h 0 (by omega); simpa [polls] using this
    rw [wait_while]
    simp only [h0, if_true]
    by_cases ht0 : t = 0
    · subst ht0; simp [polls]
    · simp only [ht0, if_false]
      rw [ih _ (by omega), polls_succ_append]
      intro j hj
      have := h (j + 1) (by omega)
      rwa [polls_succ_append] at this

/-- If the condition fails for the first time on load `k + 1 ≤ t`, the loop stops
there with a positive counter. -/
theorem wait_while_exit (chan : Chan) (cond : Nat → Bool) (t k : Nat) (tr : List Event)
    (hk : k < t)
    (h : ∀ j, j < k → cond (readl chan (tr ++ polls chan j tr) SHMEM_CHAN_STATUS) = true)
    (hk2 : cond (readl chan (tr ++ polls chan k tr) SHMEM_CHAN_STATUS) = false) :
    wait_while chan cond t tr = (t - k, tr ++ polls chan (k + 1) tr) := by
  induction t generalizing tr k with
  | zero => omega
  | succ t ih =>
    rw [wait_while]
    cases k with
    | zero =>
      have h0 : cond (readl chan tr SHMEM_CHAN_STATUS) = false := by simpa [polls] using hk2
      simp [h0, polls]
    | succ k =>
      have h0 : cond (readl chan tr SHMEM_CHAN_STATUS) = true := by
        have := h 0 (by omega); simpa [polls] using this
      have ht0 : t ≠ 0 := by omega
      simp only [h0, if_true, ht0, if_false]
      rw [ih k _ (by omega), polls_succ_append (k := k + 1)]
      · congr 1; omega
      · intro j hj
        have := h (j + 1) (by omega)
        rwa [polls_succ_append] at this
      · rwa [polls_succ_append] at hk2

/-- The loop only ever appends loads of `channel_status`: between one and `t` of
them, and `t` of them when it runs out. -/
theorem wait_while_shape (chan : Chan) (cond : Nat → Bool) (t : Nat) (tr : List Event)
    (ht : 0 < t) :
    ∃ k, 1 ≤ k ∧ k ≤ t ∧ (wait_while chan cond t tr).2 = tr ++ polls chan k tr ∧
      ((wait_while chan cond t tr).1 = 0 → k = t) := by
  by_cases hall : ∀ j, j < t → cond (readl chan (tr ++ polls chan j tr) SHMEM_CHAN_STATUS) = true
  · exact ⟨t, ht, le_refl _, by rw [wait_while_timeout chan cond t tr ht hall], fun _ => rfl⟩
  · push_neg at hall
    have hex : ∃ j, j < t ∧ cond (readl chan (tr ++ polls chan j tr) SHMEM_CHAN_STATUS) ≠ true := hall
    classical
    let k := Nat.find hex
    have hk : k < t ∧ cond (readl chan (tr ++ polls chan k tr) SHMEM_CHAN_STATUS) ≠ true :=
      Nat.find_spec hex
    have hmin : ∀ j, j < k → cond (readl chan (tr ++ polls chan j tr) SHMEM_CHAN_STATUS) = true := by
      intro j hj
      by_contra hc
      exact Nat.find_min hex hj ⟨by omega, hc⟩
    have hw := wait_while_exit chan cond t k tr hk.1 hmin (by simpa using hk.2)
    refine ⟨k + 1, by omega, by omega, by rw [hw], ?_⟩
    rw [hw]; simp only; omega

/-- The free/ready wait does not run out when the condition fails on one of its
first `t` loads. -/
theorem wait_while_ok (chan : Chan) (cond : Nat → Bool) (t k : Nat) (tr : List Event)
    (hk : k < t)
    (hk2 : cond (readl chan (tr ++ polls chan k tr) SHMEM_CHAN_STATUS) = false) :
    (wait_while chan cond t tr).1 ≠ 0 := by
  have hex : ∃ j, j < t ∧ cond (readl chan (tr ++ polls chan j tr) SHMEM_CHAN_STATUS) ≠ true :=
    ⟨k, hk, by simp [hk2]⟩
  classical
  have hs := Nat.find_spec hex
  have hmin : ∀ j, j < Nat.find hex →
      cond (readl chan (tr ++ polls chan j tr) SHMEM_CHAN_STATUS) = true := by
    intro j hj
    by_contra hc
    exact Nat.find_min hex hj ⟨by omega, hc⟩
  rw [wait_while_exit chan cond t (Nat.find hex) tr hs.1 hmin (by simpa using hs.2)]
  simp only; omega

/-! ## The payload and copy loops -/

theorem write_payload_eq (payload : Nat → Nat) (k i : Nat) (tr : List Event) :
    write_payload payload k i tr = tr ++ payload_events payload i k := by
  induction k generalizing i tr with
  | zero => simp [write_payload, payload_events]
  | succ k ih =>
    rw [write_payload, ih]
    simp [payload_events, List.range'_succ]

theorem payload_events_length (payload : Nat → Nat) (i k : Nat) :
    (payload_events payload i k).length = k := by
  simp [payload_events]

theorem payload_events_mem (payload : Nat → Nat) (i k j : Nat) (h1 : i ≤ j) (h2 : j < i + k) :
    Event.writel (payload j) (payload_off j) ∈ payload_events payload i k := by
  unfold payload_events
  refine List.mem_map.mpr ⟨j, ?_, rfl⟩
  rw [List.mem_range'_1]; exact ⟨h1, h2⟩

theorem copy_events_length (chan : Chan) (k i : Nat) (tr : List Event) :
    (copy_events chan k i tr).length = k := by
  induction k generalizing i tr with
  | zero => rfl
  | succ k ih => simp [copy_events, ih]

theorem copy_events_mem (chan : Chan) (k i : Nat) (tr : List Event) (e : Event)
    (he : e ∈ copy_events chan k i tr) :
    ∃ j v, i ≤ j ∧ j < i + k ∧ e = Event.readl (payload_off j) v := by
  induction k generalizing i tr with
  | zero => simp [copy_events] at he
  | succ k ih =>
    simp only [copy_events, List.mem_cons] at he
    rcases he with he | he
    · exact ⟨i, _, le_refl _, by omega, he⟩
    · obtain ⟨j, v, h1, h2, h3⟩ := ih _ _ he
      exact ⟨j, v, by omega, by omega, h3⟩

theorem copy_events_offsets (chan : Chan) (k i : Nat) (tr : List Event) :
    (reads (copy_events chan k i tr)).map Prod.fst = (List.range' i k).map payload_off := by
  induction k generalizing i tr with
  | zero => rfl
  | succ k ih =>
    have := ih (i + 1) (tr ++ [Event.readl (payload_off i) (readl chan tr (payload_off i))])
    simp only [reads] at this
    simp [copy_events, reads, List.range'_succ, this]

theorem read_response_trace (chan : Chan) (k i : Nat) (buf : Nat → Nat) (tr : List Event) :
    (read_response chan k i buf tr).2 = tr ++ copy_events chan k i tr := by
  induction k generalizing i buf tr with
  | zero => simp [read_response, copy_events]
  | succ k ih =>
    rw [read_response]
    simp only [ih, copy_events, List.append_assoc, List.singleton_append]

/-- The copy loop stores nothing outside `response[i .. i + k - 1]`. -/
theorem read_response_outside (chan : Chan) (k i : Nat) (buf : Nat → Nat) (tr : List Event)
    (j : Nat) (hj : j < i ∨ i + k ≤ j) :
    (read_response chan k i buf tr).1 j = buf j := by
  induction k generalizing i buf tr with
  | zero => simp [read_response]
  | succ k ih =>
    rw [read_response, ih (i + 1) _ _ (by omega)]
    exact Function.update_noteq (by omega) _ _

/-- The copy loop stores 32-bit words in `response[i .. i + k - 1]`. -/
theorem read_response_inside_lt (chan : Chan) (k i : Nat) (buf : Nat → Nat) (tr : List Event)
    (j : Nat) (h1 : i ≤ j) (h2 : j < i + k) :
    (read_response chan k i buf tr).1 j < 4294967296 := by
  induction k generalizing i buf tr with
  | zero => omega
  | succ k ih =>
    rw [read_response]
    by_cases hji : j = i
    · subst hji
      rw [read_response_outside chan k (j + 1) _ _ j (by omega), Function.update_same]
      exact readl_lt _ _ _
    · exact ih (i + 1) _ _ (by omega) (by omega)

/-- The word the copy loop leaves in `response[0]` is the one its first load returns. -/
theorem read_response_zero (chan : Chan) (k : Nat) (buf : Nat → Nat) (tr : List Event)
    (hk : 0 < k) :
    (read_response chan k 0 buf tr).1 0 = readl chan tr SHMEM_PAYLOAD := by
  cases k with
  | zero => omega
  | succ k =>
    rw [read_response, read_response_outside chan k 1 _ _ 0 (by omega), Function.update_same]
    simp [payload_off, int_mul, to_s32]

/-! ## Observers -/

theorem writes_append (a b : List Event) : writes (a ++ b) = writes a ++ writes b := by
  simp [writes]

theorem reads_append (a b : List Event) : reads (a ++ b) = reads a ++ reads b := by
  simp [reads]

theorem logs_append (a b : List Event) : logs (a ++ b) = logs a ++ logs b := by
  simp [logs]

theorem calls_append (a b : List Event) : calls (a ++ b) = calls a ++ calls b := by
  simp [calls]

theorem writes_polls (chan : Chan) (k : Nat) (tr : List Event) : writes (polls chan k tr) = [] := by
  induction k generalizing tr with
  | zero => rfl
  | succ k ih => have := ih (tr ++ [Event.readl SHMEM_CHAN_STATUS (readl chan tr SHMEM_CHAN_STATUS)]); simp only [writes] at this; simp [polls, writes, this]

theorem logs_polls (chan : Chan) (k : Nat) (tr : List Event) : logs (polls chan k tr) = [] := by
  induction k generalizing tr with
  | zero => rfl
  | succ k ih => have := ih (tr ++ [Event.readl SHMEM_CHAN_STATUS (readl chan tr SHMEM_CHAN_STATUS)]); simp only [logs] at this; simp [polls, logs, this]

theorem calls_polls (chan : Chan) (k : Nat) (tr : List Event) : calls (polls chan k tr) = [] := by
  induction k generalizing tr with
  | zero => rfl
  | succ k ih => have := ih (tr ++ [Event.readl SHMEM_CHAN_STATUS (readl chan tr SHMEM_CHAN_STATUS)]); simp only [calls] at this; simp [polls, calls, this]

theorem reads_polls_offsets (chan : Chan) (k : Nat) (tr : List Event) :
    ∀ p ∈ reads (polls chan k tr), p.1 = SHMEM_CHAN_STATUS := by
  induction k generalizing tr with
  | zero => simp [polls, reads]
  | succ k ih =>
    intro p hp
    have := ih (tr ++ [Event.readl SHMEM_CHAN_STATUS (readl chan tr SHMEM_CHAN_STATUS)])
    simp only [reads] at this
    simp only [polls, reads, List.filterMap_cons, List.mem_cons] at hp
    rcases hp with hp | hp
    · rw [hp]
    · exact this p hp

theorem reads_polls_length (chan : Chan) (k : Nat) (tr : List Event) :
    (reads (polls chan k tr)).length = k := by
  induction k generalizing tr with
  | zero => rfl
  | succ k ih =>
    have := ih (tr ++ [Event.readl SHMEM_CHAN_STATUS (readl chan tr SHMEM_CHAN_STATUS)])
    simp only [reads] at this
    simp [polls, reads, this]

theorem writes_copy_events (chan : Chan) (k i : Nat) (tr : List Event) :
    writes (copy_events chan k i tr) = [] := by
  induction k generalizing i tr with
  | zero => rfl
  | succ k ih => have := ih (i + 1) (tr ++ [Event.readl (payload_off i) (readl chan tr (payload_off i))]); simp only [writes] at this; simp [copy_events, writes, this]

theorem logs_copy_events (chan : Chan) (k i : Nat) (tr : List Event) :
    logs (copy_events chan k i tr) = [] := by
  induction k generalizing i tr with
  | zero => rfl
  | succ k ih => have := ih (i + 1) (tr ++ [Event.readl (payload_off i) (readl chan tr (payload_off i))]); simp only [logs] at this; simp [copy_events, logs, this]

theorem calls_copy_events (chan : Chan) (k i : Nat) (tr : List Event) :
    calls (copy_events chan k i tr) = [] := by
  induction k generalizing i tr with
  | zero => rfl
  | succ k ih => have := ih (i + 1) (tr ++ [Event.readl (payload_off i) (readl chan tr (payload_off i))]); simp only [calls] at this; simp [copy_events, calls, this]

theorem writes_payload_events (payload : Nat → Nat) (i k : Nat) :
    writes (payload_events payload i k) =
      (List.range' i k).map fun j => (payload_off j, payload j) := by
  simp only [payload_events, writes, List.filterMap_map, Function.comp_def]
  exact congrFun (List.filterMap_eq_map fun j => (payload_off j, payload j)) _

theorem reads_payload_events (payload : Nat → Nat) (i k : Nat) :
    reads (payload_events payload i k) = [] := by
  simp [payload_events, reads, List.filterMap_map, Function.comp_def]

theorem logs_payload_events (payload : Nat → Nat) (i k : Nat) :
    logs (payload_events payload i k) = [] := by
  simp [payload_events, logs, List.filterMap_map, Function.comp_def]

theorem calls_payload_events (payload : Nat → Nat) (i k : Nat) :
    calls (payload_events payload i k) = [] := by
  simp [payload_events, calls, List.filterMap_map, Function.comp_def]

/-! ## The phases of `scmi_send` -/

theorem write_request_eq (proto msg_id : Nat) (payload : Nat → Nat) (n : Int)
    (tr : List Event) :
    write_request proto msg_id payload n tr =
      tr ++ ([Event.writel 0 SHMEM_FLAGS,
          Event.writel (to_u32 (int_add 4 (int_mul n 4))) SHMEM_LENGTH,
          Event.writel (SCMI_HDR proto msg_id 0) SHMEM_HEADER] ++
        payload_events payload 0 n.toNat ++ [Event.writel 1 SHMEM_DOORBELL]) := by
  simp [write_request, write_payload_eq]

theorem writes_write_request (proto msg_id : Nat) (payload : Nat → Nat) (n : Int)
    (tr : List Event) :
    writes (write_request proto msg_id payload n tr) =
      writes tr ++ request_stores proto msg_id payload n := by
  rw [write_request_eq]
  simp only [writes_append, writes_payload_events, request_stores, List.range_eq_range']
  simp [writes]

theorem free_wait_shape (chan : Chan) (proto msg_id : Nat) (payload : Nat → Nat) (n : Int)
    (tr : List Event) :
    ∃ k, 1 ≤ k ∧ k ≤ 10000 ∧
      (free_wait chan proto msg_id payload n tr).2 =
        entry proto msg_id payload n tr ++ polls chan k (entry proto msg_id payload n tr) ∧
      ((free_wait chan proto msg_id payload n tr).1 = 0 → k = 10000) :=
  wait_while_shape chan chan_busy 10000 _ (by omega)

theorem response_wait_shape (chan : Chan) (proto msg_id : Nat) (payload : Nat → Nat) (n : Int)
    (tr : List Event) :
    ∃ k, 1 ≤ k ∧ k ≤ 100000 ∧
      (response_wait chan proto msg_id payload n tr).2 =
        rung chan proto msg_id payload n tr ++ polls chan k (rung chan proto msg_id payload n tr) ∧
      ((response_wait chan proto msg_id payload n tr).1 = 0 → k = 100000) :=
  wait_while_shape chan chan_not_ready 100000 _ (by omega)

/-- The call on its busy-timeout path. -/
theorem scmi_send_busy (chan : Chan) (proto msg_id : Nat) (payload : Nat → Nat) (n : Int)
    (response : Option (Nat → Nat)) (resp_words : Option Int) (tr : List Event)
    (h : (free_wait chan proto msg_id payload n tr).1 = 0) :
    scmi_send chan proto msg_id payload n response resp_words tr =
      { ret := -ETIMEDOUT, response := response, resp_words := resp_words,
        trace := (free_wait chan proto msg_id payload n tr).2 ++ [Event.log Log.busy_timeout] } := by
  unfold free_wait entry at h
  simp [scmi_send, free_wait, entry, h]

/-- The call on its response-timeout path. -/
theorem scmi_send_no_response (chan : Chan) (proto msg_id : Nat) (payload : Nat → Nat) (n : Int)
    (response : Option (Nat → Nat)) (resp_words : Option Int) (tr : List Event)
    (h1 : (free_wait chan proto msg_id payload n tr).1 ≠ 0)
    (h2 : (response_wait chan proto msg_id payload n tr).1 = 0) :
    scmi_send chan proto msg_id payload n response resp_words tr =
      { ret := -ETIMEDOUT, response := response, resp_words := resp_words,
        trace := (response_wait chan proto msg_id payload n tr).2 ++
          [Event.log Log.response_timeout] } := by
  unfold response_wait rung free_wait entry at h2
  unfold free_wait entry at h1
  simp [scmi_send, response_wait, rung, free_wait, entry, h1, h2]

/-- The call when both waits succeed. -/
theorem scmi_send_completed (chan : Chan) (proto msg_id : Nat) (payload : Nat → Nat) (n : Int)
    (response : Option (Nat → Nat)) (resp_words : Option Int) (tr : List Event)
    (h : completed chan proto msg_id payload n tr) :
    scmi_send chan proto msg_id payload n response resp_words tr =
      read_reply chan response resp_words (response_wait chan proto msg_id payload n tr).2 := by
  obtain ⟨h1, h2⟩ := h
  unfold response_wait rung free_wait entry at h2
  unfold free_wait entry at h1
  simp [scmi_send, response_wait, rung, free_wait, entry, h1, h2]

theorem read_reply_ret (chan : Chan) (response : Option (Nat → Nat)) (resp_words : Option Int)
    (tr : List Event) :
    (read_reply chan response resp_words tr).ret = to_s32 (readl chan tr SHMEM_PAYLOAD) := by
  cases response <;> cases resp_words <;> rfl

theorem read_reply_some (chan : Chan) (buf : Nat → Nat) (cap : Int) (tr : List Event) :
    read_reply chan (some buf) (some cap) tr =
      { ret := to_s32 (readl chan tr SHMEM_PAYLOAD),
        response := some (read_response chan
          (clamped_len (readl chan (tr ++ [Event.readl SHMEM_PAYLOAD (readl chan tr SHMEM_PAYLOAD)])
            SHMEM_LENGTH) cap).toNat 0 buf
          (tr ++ [Event.readl SHMEM_PAYLOAD (readl chan tr SHMEM_PAYLOAD)] ++
            [Event.readl SHMEM_LENGTH
              (readl chan (tr ++ [Event.readl SHMEM_PAYLOAD (readl chan tr SHMEM_PAYLOAD)])
                SHMEM_LENGTH)])).1,
        resp_words := some (clamped_len
          (readl chan (tr ++ [Event.readl SHMEM_PAYLOAD (readl chan tr SHMEM_PAYLOAD)])
            SHMEM_LENGTH) cap),
        trace := (tr ++ [Event.readl SHMEM_PAYLOAD (readl chan tr SHMEM_PAYLOAD)] ++
            [Event.readl SHMEM_LENGTH
              (readl chan (tr ++ [Event.readl SHMEM_PAYLOAD (readl chan tr SHMEM_PAYLOAD)])
                SHMEM_LENGTH)]) ++
          copy_events chan
            (clamped_len (readl chan (tr ++ [Event.readl SHMEM_PAYLOAD (readl chan tr SHMEM_PAYLOAD)])
              SHMEM_LENGTH) cap).toNat 0
            (tr ++ [Event.readl SHMEM_PAYLOAD (readl chan tr SHMEM_PAYLOAD)] ++
              [Event.readl SHMEM_LENGTH
                (readl chan (tr ++ [Event.readl SHMEM_PAYLOAD (readl chan tr SHMEM_PAYLOAD)])
                  SHMEM_LENGTH)]) } := by
  unfold read_reply
  simp only [read_response_trace]

/-- A completed call with a response buffer, phase by phase. -/
theorem scmi_send_reply (chan : Chan) (proto msg_id : Nat) (payload : Nat → Nat) (n : Int)
    (buf : Nat → Nat) (cap : Int) (tr : List Event)
    (h : completed chan proto msg_id payload n tr) :
    scmi_send chan proto msg_id payload n (some buf) (some cap) tr =
      { ret := to_s32 (status_word chan proto msg_id payload n tr),
        response := some (read_response chan
          (clamped_len (length_field chan proto msg_id payload n tr) cap).toNat 0 buf
          (before_copy chan proto msg_id payload n tr)).1,
        resp_words := some (clamped_len (length_field chan proto msg_id payload n tr) cap),
        trace := before_copy chan proto msg_id payload n tr ++
          copy_events chan (clamped_len (length_field chan proto msg_id payload n tr) cap).toNat 0
            (before_copy chan proto msg_id payload n tr) } := by
  rw [scmi_send_completed _ _ _ _ _ _ _ _ h, read_reply_some]
  simp only [before_copy, length_field, after_status, status_word]

theorem scmi_send_ret (chan : Chan) (proto msg_id : Nat) (payload : Nat → Nat) (n : Int)
    (response : Option (Nat → Nat)) (resp_words : Option Int) (tr : List Event)
    (h : completed chan proto msg_id payload n tr) :
    (scmi_send chan proto msg_id payload n response resp_words tr).ret =
      to_s32 (status_word chan proto msg_id payload n tr) := by
  rw [scmi_send_completed _ _ _ _ _ _ _ _ h, read_reply_ret, status_word]

theorem u32_len_lt (l : Nat) : u32_sub l 4 / 4 < 1073741824 := by
  unfold u32_sub; omega

theorem clamped_len_eq (l : Nat) (cap : Int) :
    clamped_len l cap = min ((u32_sub l 4 / 4 : Nat) : Int) cap := by
  have h := u32_len_lt l
  unfold clamped_len
  simp only [to_s32_id (x := ((u32_sub l 4 / 4 : Nat) : Int)) (by omega) (by omega)]
  split <;> omega

theorem clamped_len_le (l : Nat) (cap : Int) : clamped_len l cap ≤ cap := by
  rw [clamped_len_eq]; omega

theorem clamped_len_nonneg (l : Nat) (cap : Int) (h : 0 ≤ cap) : 0 ≤ clamped_len l cap := by
  rw [clamped_len_eq]; omega

/-! ## What a call adds to the history -/

theorem writes_entry (proto msg_id : Nat) (payload : Nat → Nat) (n : Int) (tr : List Event) :
    writes (entry proto msg_id payload n tr) = writes tr := by
  simp [entry, writes]

theorem reads_entry (proto msg_id : Nat) (payload : Nat → Nat) (n : Int) (tr : List Event) :
    reads (entry proto msg_id payload n tr) = reads tr := by
  simp [entry, reads]

theorem logs_entry (proto msg_id : Nat) (payload : Nat → Nat) (n : Int) (tr : List Event) :
    logs (entry proto msg_id payload n tr) = logs tr := by
  simp [entry, logs]

theorem calls_entry (proto msg_id : Nat) (payload : Nat → Nat) (n : Int) (tr : List Event) :
    calls (entry proto msg_id payload n tr) =
      calls tr ++ [(proto, msg_id, payload_list payload n, n)] := by
  simp [entry, calls]

theorem writes_free_wait (chan : Chan) (proto msg_id : Nat) (payload : Nat → Nat) (n : Int)
    (tr : List Event) : writes (free_wait chan proto msg_id payload n tr).2 = writes tr := by
  obtain ⟨k, _, _, hk, _⟩ := free_wait_shape chan proto msg_id payload n tr
  rw [hk, writes_append, writes_polls, writes_entry, List.append_nil]

theorem logs_free_wait (chan : Chan) (proto msg_id : Nat) (payload : Nat → Nat) (n : Int)
    (tr : List Event) : logs (free_wait chan proto msg_id payload n tr).2 = logs tr := by
  obtain ⟨k, _, _, hk, _⟩ := free_wait_shape chan proto msg_id payload n tr
  rw [hk, logs_append, logs_polls, logs_entry, List.append_nil]

theorem calls_free_wait (chan : Chan) (proto msg_id : Nat) (payload : Nat → Nat) (n : Int)
    (tr : List Event) :
    calls (free_wait chan proto msg_id payload n tr).2 =
      calls tr ++ [(proto, msg_id, payload_list payload n, n)] := by
  obtain ⟨k, _, _, hk, _⟩ := free_wait_shape chan proto msg_id payload n tr
  rw [hk, calls_append, calls_polls, calls_entry, List.append_nil]

theorem reads_free_wait (chan : Chan) (proto msg_id : Nat) (payload : Nat → Nat) (n : Int)
    (tr : List Event) :
    ∃ evs, reads (free_wait chan proto msg_id payload n tr).2 = reads tr ++ evs ∧
      ∀ p ∈ evs, p.1 = SHMEM_CHAN_STATUS := by
  obtain ⟨k, _, _, hk, _⟩ := free_wait_shape chan proto msg_id payload n tr
  exact ⟨_, by rw [hk, reads_append, reads_entry], reads_polls_offsets _ _ _⟩

theorem writes_rung (chan : Chan) (proto msg_id : Nat) (payload : Nat → Nat) (n : Int)
    (tr : List Event) :
    writes (rung chan proto msg_id payload n tr) =
      writes tr ++ request_stores proto msg_id payload n := by
  rw [rung, writes_write_request, writes_free_wait]

theorem logs_rung (chan : Chan) (proto msg_id : Nat) (payload : Nat → Nat) (n : Int)
    (tr : List Event) : logs (rung chan proto msg_id payload n tr) = logs tr := by
  rw [rung, write_request_eq]
  simp only [logs_append, logs_free_wait, logs_payload_events]
  simp [logs]

theorem calls_rung (chan : Chan) (proto msg_id : Nat) (payload : Nat → Nat) (n : Int)
    (tr : List Event) :
    calls (rung chan proto msg_id payload n tr) =
      calls tr ++ [(proto, msg_id, payload_list payload n, n)] := by
  rw [rung, write_request_eq]
  simp only [calls_append, calls_free_wait, calls_payload_events]
  simp [calls]

theorem reads_rung (chan : Chan) (proto msg_id : Nat) (payload : Nat → Nat) (n : Int)
    (tr : List Event) :
    reads (rung chan proto msg_id payload n tr) =
      reads (free_wait chan proto msg_id payload n tr).2 := by
  rw [rung, write_request_eq]
  simp only [reads_append, reads_payload_events]
  simp [reads]

theorem writes_response_wait (chan : Chan) (proto msg_id : Nat) (payload : Nat → Nat) (n : Int)
    (tr : List Event) :
    writes (response_wait chan proto msg_id payload n tr).2 =
      writes tr ++ request_stores proto msg_id payload n := by
  obtain ⟨k, _, _, hk, _⟩ := response_wait_shape chan proto msg_id payload n tr
  rw [hk, writes_append, writes_polls, writes_rung, List.append_nil]

theorem logs_response_wait (chan : Chan) (proto msg_id : Nat) (payload : Nat → Nat) (n : Int)
    (tr : List Event) : logs (response_wait chan proto msg_id payload n tr).2 = logs tr := by
  obtain ⟨k, _, _, hk, _⟩ := response_wait_shape chan proto msg_id payload n tr
  rw [hk, logs_append, logs_polls, logs_rung, List.append_nil]

theorem calls_response_wait (chan : Chan) (proto msg_id : Nat) (payload : Nat → Nat) (n : Int)
    (tr : List Event) :
    calls (response_wait chan proto msg_id payload n tr).2 =
      calls tr ++ [(proto, msg_id, payload_list payload n, n)] := by
  obtain ⟨k, _, _, hk, _⟩ := response_wait_shape chan proto msg_id payload n tr
  rw [hk, calls_append, calls_polls, calls_rung, List.append_nil]

theorem reads_response_wait (chan : Chan) (proto msg_id : Nat) (payload : Nat → Nat) (n : Int)
    (tr : List Event) :
    ∃ evs, reads (response_wait chan proto msg_id payload n tr).2 = reads tr ++ evs ∧
      ∀ p ∈ evs, p.1 = SHMEM_CHAN_STATUS := by
  obtain ⟨k, _, _, hk, _⟩ := response_wait_shape chan proto msg_id payload n tr
  obtain ⟨evs, h1, h2⟩ := reads_free_wait chan proto msg_id payload n tr
  refine ⟨evs ++ reads (polls chan k (rung chan proto msg_id payload n tr)), ?_, ?_⟩
  · rw [hk, reads_append, reads_rung, h1, List.append_assoc]
  · intro p hp
    rcases List.mem_append.mp hp with hp | hp
    · exact h2 p hp
    · exact reads_polls_offsets _ _ _ p hp

theorem read_reply_trace_some (chan : Chan) (buf : Nat → Nat) (cap : Int) (tr : List Event) :
    (read_reply chan (some buf) (some cap) tr).trace =
      tr ++ ([Event.readl SHMEM_PAYLOAD (readl chan tr SHMEM_PAYLOAD),
          Event.readl SHMEM_LENGTH
            (readl chan (tr ++ [Event.readl SHMEM_PAYLOAD (readl chan tr SHMEM_PAYLOAD)])
              SHMEM_LENGTH)] ++
        copy_events chan
          (clamped_len (readl chan (tr ++ [Event.readl SHMEM_PAYLOAD (readl chan tr SHMEM_PAYLOAD)])
            SHMEM_LENGTH) cap).toNat 0
          (tr ++ [Event.readl SHMEM_PAYLOAD (readl chan tr SHMEM_PAYLOAD)] ++
            [Event.readl SHMEM_LENGTH
              (readl chan (tr ++ [Event.readl SHMEM_PAYLOAD (readl chan tr SHMEM_PAYLOAD)])
                SHMEM_LENGTH)])) := by
  rw [read_reply_some]
  simp only [List.append_assoc, List.singleton_append, List.cons_append, List.nil_append]

/-- The response part appends loads only. -/
theorem read_reply_adds (chan : Chan) (response : Option (Nat → Nat)) (resp_words : Option Int)
    (tr : List Event) :
    ∃ evs, (read_reply chan response resp_words tr).trace = tr ++ evs ∧
      writes evs = [] ∧ logs evs = [] ∧ calls evs = [] := by
  cases response with
  | none => exact ⟨_, rfl, rfl, rfl, rfl⟩
  | some buf =>
    cases resp_words with
    | none => exact ⟨_, rfl, rfl, rfl, rfl⟩
    | some cap =>
      refine ⟨_, read_reply_trace_some chan buf cap tr, ?_, ?_, ?_⟩
      · rw [writes_append, writes_copy_events]; rfl
      · rw [logs_append, logs_copy_events]; rfl
      · rw [calls_append, calls_copy_events]; rfl

/-- The stores of a call: none when the free wait runs out, the request otherwise. -/
theorem scmi_send_writes (chan : Chan) (proto msg_id : Nat) (payload : Nat → Nat) (n : Int)
    (response : Option (Nat → Nat)) (resp_words : Option Int) (tr : List Event) :
    writes (scmi_send chan proto msg_id payload n response resp_words tr).trace =
      writes tr ++ (if (free_wait chan proto msg_id payload n tr).1 = 0 then []
        else request_stores proto msg_id payload n) := by
  by_cases h1 : (free_wait chan proto msg_id payload n tr).1 = 0
  · rw [scmi_send_busy _ _ _ _ _ _ _ _ h1, if_pos h1]
    simp only [writes_append, writes_free_wait]; rfl
  · rw [if_neg h1]
    by_cases h2 : (response_wait chan proto msg_id payload n tr).1 = 0
    · rw [scmi_send_no_response _ _ _ _ _ _ _ _ h1 h2]
      simp only [writes_append, writes_response_wait]
      simp [writes]
    · rw [scmi_send_completed _ _ _ _ _ _ _ _ ⟨h1, h2⟩]
      obtain ⟨evs, he, hw, _, _⟩ := read_reply_adds chan response resp_words
        (response_wait chan proto msg_id payload n tr).2
      rw [he, writes_append, hw, writes_response_wait, List.append_nil]

/-- The lines a call prints: one for a timeout, none otherwise. -/
theorem scmi_send_logs (chan : Chan) (proto msg_id : Nat) (payload : Nat → Nat) (n : Int)
    (response : Option (Nat → Nat)) (resp_words : Option Int) (tr : List Event) :
    logs (scmi_send chan proto msg_id payload n response resp_words tr).trace =
      logs tr ++ (if (free_wait chan proto msg_id payload n tr).1 = 0 then [Log.busy_timeout]
        else if (response_wait chan proto msg_id payload n tr).1 = 0 then [Log.response_timeout]
        else []) := by
  by_cases h1 : (free_wait chan proto msg_id payload n tr).1 = 0
  · rw [scmi_send_busy _ _ _ _ _ _ _ _ h1, if_pos h1]
    simp only [logs_append, logs_free_wait]; rfl
  · rw [if_neg h1]
    by_cases h2 : (response_wait chan proto msg_id payload n tr).1 = 0
    · rw [scmi_send_no_response _ _ _ _ _ _ _ _ h1 h2, if_pos h2]
      simp only [logs_append, logs_response_wait]; rfl
    · rw [scmi_send_completed _ _ _ _ _ _ _ _ ⟨h1, h2⟩, if_neg h2]
      obtain ⟨evs, he, _, hl, _⟩ := read_reply_adds chan response resp_words
        (response_wait chan proto msg_id payload n tr).2
      rw [he, logs_append, hl, logs_response_wait]

/-- A call is recorded once. -/
theorem scmi_send_calls (chan : Chan) (proto msg_id : Nat) (payload : Nat → Nat) (n : Int)
    (response : Option (Nat → Nat)) (resp_words : Option Int) (tr : List Event) :
    calls (scmi_send chan proto msg_id payload n response resp_words tr).trace =
      calls tr ++ [(proto, msg_id, payload_list payload n, n)] := by
  by_cases h1 : (free_wait chan proto msg_id payload n tr).1 = 0
  · rw [scmi_send_busy _ _ _ _ _ _ _ _ h1]
    simp only [calls_append, calls_free_wait]
    simp [calls]
  · by_cases h2 : (response_wait chan proto msg_id payload n tr).1 = 0
    · rw [scmi_send_no_response _ _ _ _ _ _ _ _ h1 h2]
      simp only [calls_append, calls_response_wait]
      simp [calls]
    · rw [scmi_send_completed _ _ _ _ _ _ _ _ ⟨h1, h2⟩]
      obtain ⟨evs, he, _, _, hc⟩ := read_reply_adds chan response resp_words
        (response_wait chan proto msg_id payload n tr).2
      rw [he, calls_append, hc, calls_response_wait, List.append_nil]

/-- Within `2^29` words the offsets and the length of a request do not wrap. -/
theorem request_stores_eq (proto msg_id : Nat) (payload : Nat → Nat) (n : Nat)
    (hn : n ≤ 536870912) :
    request_stores proto msg_id payload (n : Int) = request_writes proto msg_id payload n := by
  have h1 : to_u32 (int_add 4 (int_mul (n : Int) 4)) = 4 + 4 * n := by
    rw [length_word]; omega
  have h2 : (List.range n).map (fun i => (payload_off i, payload i)) =
      (List.range n).map (fun (i : Nat) => (SHMEM_PAYLOAD + 4 * (i : Int), payload i)) := by
    apply List.map_congr_left
    intro i hi
    rw [List.mem_range] at hi
    rw [payload_off_small (by omega)]; rfl
  unfold request_stores request_writes
  rw [h1, Int.toNat_ofNat, h2]

/-! ## The header word -/

theorem SCMI_HDR_eq (p m s : Nat) (hp : p < 256) (hm : m < 256) :
    SCMI_HDR p m s = s * 262144 + p * 1024 + m := by
  have h1 : 2 ^ 10 * p + m = 2 ^ 10 * p ||| m := Nat.mul_add_lt_is_or (by omega) p
  have h2 : 2 ^ 18 * s + (2 ^ 10 * p + m) = 2 ^ 18 * s ||| (2 ^ 10 * p + m) :=
    Nat.mul_add_lt_is_or (by omega) s
  unfold SCMI_HDR
  rw [Nat.shiftLeft_eq, Nat.shiftLeft_eq, Nat.shiftLeft_eq, Nat.pow_zero, Nat.mul_one,
    Nat.mul_comm p, Nat.mul_comm s, ← h1, Nat.lor_comm, ← h2]
  omega

/-- C2: for a protocol id and a message id below `2^8` and a sequence token below
`2^10`, masking the header word gives back the message id (bits 9:0), the protocol
id (bits 17:10) and the token (bits 27:18); the word is the sum of the three fields
at these positions, so bits 8, 9 and 28 and up are zero. -/
theorem SCMI_HDR_roundtrip (p m s : Nat) (hp : p < 2 ^ 8) (hm : m < 2 ^ 8) (hs : s < 2 ^ 10) :
    SCMI_HDR p m s &&& 0x3FF = m ∧
    (SCMI_HDR p m s >>> 10) &&& 0xFF = p ∧
    (SCMI_HDR p m s >>> 18) &&& 0x3FF = s ∧
    SCMI_HDR p m s = s * 2 ^ 18 + p * 2 ^ 10 + m ∧
    (SCMI_HDR p m s >>> 8) &&& 0x3 = 0 ∧
    SCMI_HDR p m s >>> 28 = 0 := by
  have h := SCMI_HDR_eq p m s (by omega) (by omega)
  have e10 : (0x3FF : Nat) = 2 ^ 10 - 1 := by norm_num
  have e8 : (0xFF : Nat) = 2 ^ 8 - 1 := by norm_num
  have e2 : (0x3 : Nat) = 2 ^ 2 - 1 := by norm_num
  rw [e10, e8, e2]
  simp only [Nat.and_pow_two_sub_one_eq_mod, Nat.shiftRight_eq_div_pow]
  rw [h]
  norm_num at hp hm hs ⊢
  omega

/-- An instance of C2: the header of `CLOCK_CONFIG_SET` with token 5. -/
theorem SCMI_HDR_roundtrip_witness :
    SCMI_HDR 0x14 0x07 5 &&& 0x3FF = 0x07 ∧
    (SCMI_HDR 0x14 0x07 5 >>> 10) &&& 0xFF = 0x14 ∧
    (SCMI_HDR 0x14 0x07 5 >>> 18) &&& 0x3FF = 5 ∧
    SCMI_HDR 0x14 0x07 5 = 5 * 2 ^ 18 + 0x14 * 2 ^ 10 + 0x07 ∧
    (SCMI_HDR 0x14 0x07 5 >>> 8) &&& 0x3 = 0 ∧
    SCMI_HDR 0x14 0x07 5 >>> 28 = 0 :=
  SCMI_HDR_roundtrip 0x14 0x07 5 (by decide) (by decide) (by decide)

/-! ## The free wait -/

/-- C3: if bit 0 of `channel_status` is set on each of the first 10000 loads of the
free wait (load `j + 1` is the one made after the history `entry ++ polls j`), the
call returns `-ETIMEDOUT` after exactly 10000 loads of `channel_status`, prints the
busy-timeout line, stores nothing to the channel and leaves `response` and
`*resp_words` alone.  Conversely, if bit 0 is clear on one of the first 10000 loads,
the free wait does not run out: the request is written, the doorbell is rung and no
busy timeout is printed. -/
theorem busy_timeout_after_10000_polls (chan : Chan) (proto msg_id : Nat) (payload : Nat → Nat)
    (n : Int) (response : Option (Nat → Nat)) (resp_words : Option Int) (tr : List Event) :
    ((∀ j, j < 10000 →
        readl chan (entry proto msg_id payload n tr ++
          polls chan j (entry proto msg_id payload n tr)) SHMEM_CHAN_STATUS % 2 = 1) →
      (scmi_send chan proto msg_id payload n response resp_words tr).ret = -ETIMEDOUT ∧
      (scmi_send chan proto msg_id payload n response resp_words tr).response = response ∧
      (scmi_send chan proto msg_id payload n response resp_words tr).resp_words = resp_words ∧
      (scmi_send chan proto msg_id payload n response resp_words tr).trace =
        entry proto msg_id payload n tr ++ polls chan 10000 (entry proto msg_id payload n tr) ++
          [Event.log Log.busy_timeout] ∧
      (polls chan 10000 (entry proto msg_id payload n tr)).length = 10000 ∧
      (∀ e ∈ polls chan 10000 (entry proto msg_id payload n tr),
        ∃ v, e = Event.readl SHMEM_CHAN_STATUS v) ∧
      writes (scmi_send chan proto msg_id payload n response resp_words tr).trace = writes tr) ∧
    (∀ k, k < 10000 →
      readl chan (entry proto msg_id payload n tr ++
        polls chan k (entry proto msg_id payload n tr)) SHMEM_CHAN_STATUS % 2 = 0 →
      (free_wait chan proto msg_id payload n tr).1 ≠ 0 ∧
      writes (scmi_send chan proto msg_id payload n response resp_words tr).trace =
        writes tr ++ request_stores proto msg_id payload n ∧
      (logs (scmi_send chan proto msg_id payload n response resp_words tr).trace = logs tr ∨
        logs (scmi_send chan proto msg_id payload n response resp_words tr).trace =
          logs tr ++ [Log.response_timeout])) := by
  constructor
  · intro h
    have hw : free_wait chan proto msg_id payload n tr =
        (0, entry proto msg_id payload n tr ++ polls chan 10000 (entry proto msg_id payload n tr)) :=
      wait_while_timeout chan chan_busy 10000 _ (by omega)
        (fun j hj => (chan_busy_iff _).mpr (h j hj))
    have h0 : (free_wait chan proto msg_id payload n tr).1 = 0 := by rw [hw]
    refine ⟨?_, ?_, ?_, ?_, polls_length _ _ _, polls_mem _ _ _, ?_⟩
    · rw [scmi_send_busy _ _ _ _ _ _ _ _ h0]
    · rw [scmi_send_busy _ _ _ _ _ _ _ _ h0]
    · rw [scmi_send_busy _ _ _ _ _ _ _ _ h0]
    · rw [scmi_send_busy _ _ _ _ _ _ _ _ h0, hw]
    · rw [scmi_send_writes, if_pos h0, List.append_nil]
  · intro k hk h
    have h1 : (free_wait chan proto msg_id payload n tr).1 ≠ 0 :=
      wait_while_ok chan chan_busy 10000 k _ hk (by
        cases hc : chan_busy (readl chan (entry proto msg_id payload n tr ++
          polls chan k (entry proto msg_id payload n tr)) SHMEM_CHAN_STATUS)
        · rfl
        · rw [chan_busy_iff] at hc; omega)
    refine ⟨h1, ?_, ?_⟩
    · rw [scmi_send_writes, if_neg h1]
    · rw [scmi_send_logs, if_neg h1]
      by_cases h2 : (response_wait chan proto msg_id payload n tr).1 = 0
      · right; rw [if_pos h2]
      · left; rw [if_neg h2, List.append_nil]

/-- An instance of C3: a channel that is never free, and one that always is. -/
theorem busy_timeout_after_10000_polls_witness :
    (scmi_send stuck_chan 0x14 0x07 (fun _ => 30) 1 none none []).ret = -ETIMEDOUT ∧
    (free_wait idle_chan 0x14 0x07 (fun _ => 30) 1 []).1 ≠ 0 :=
  ⟨((busy_timeout_after_10000_polls stuck_chan 0x14 0x07 (fun _ => 30) 1 none none []).1
      (fun _ _ => rfl)).1,
    ((busy_timeout_after_10000_polls idle_chan 0x14 0x07 (fun _ => 30) 1 none none []).2
      0 (by decide) rfl).1⟩

/-! ## The request -/

theorem chan_status_not_requested (proto msg_id : Nat) (payload : Nat → Nat) (n v : Nat) :
    (SHMEM_CHAN_STATUS, v) ∉ request_writes proto msg_id payload n := by
  unfold request_writes
  intro h
  rcases List.mem_append.mp h with h | h
  · rcases List.mem_append.mp h with h | h
    · simp [SHMEM_CHAN_STATUS, SHMEM_FLAGS, SHMEM_LENGTH, SHMEM_HEADER] at h
    · obtain ⟨i, _, hi⟩ := List.mem_map.mp h
      have := congrArg Prod.fst hi
      simp only [SHMEM_PAYLOAD, SHMEM_CHAN_STATUS] at this
      omega
  · simp [SHMEM_CHAN_STATUS, SHMEM_DOORBELL] at h

theorem idle_not_busy (h : List Event) (off : Int) :
    chan_busy (readl idle_chan h off) = false := by
  simp [chan_busy, readl, idle_chan]

theorem idle_not_ready (h : List Event) (off : Int) :
    chan_not_ready (readl idle_chan h off) = true := by
  simp [chan_not_ready, readl, idle_chan]

theorem idle_chan_free (proto msg_id : Nat) (payload : Nat → Nat) (n : Int) (tr : List Event) :
    (free_wait idle_chan proto msg_id payload n tr).1 ≠ 0 :=
  wait_while_ok idle_chan chan_busy 10000 0 _ (by omega) (idle_not_busy _ _)

/-- C1 (amended): for a payload of `n ≤ 2^29` words, a call whose free wait succeeds
stores to the channel, in this order and nothing else: `0` to flags, `4 + 4 * n` to
length, the header word `SCMI_HDR(proto, msg_id, 0)`, `payload[i]` to
`0x1C + 4 * i` for `i = 0 .. n - 1` in increasing order, and finally `1` to the
doorbell; so the doorbell comes after length and header, and `channel_status` is
never stored to. -/
theorem request_written_in_order (chan : Chan) (proto msg_id : Nat) (payload : Nat → Nat)
    (n : Nat) (response : Option (Nat → Nat)) (resp_words : Option Int) (tr : List Event)
    (hn : n ≤ 536870912)
    (hfree : (free_wait chan proto msg_id payload n tr).1 ≠ 0) :
    writes (scmi_send chan proto msg_id payload n response resp_words tr).trace =
      writes tr ++ request_writes proto msg_id payload n ∧
    ∀ v, (SHMEM_CHAN_STATUS, v) ∉ request_writes proto msg_id payload n := by
  refine ⟨?_, fun v => chan_status_not_requested _ _ _ _ _⟩
  rw [scmi_send_writes, if_neg hfree, request_stores_eq _ _ _ _ hn]

/-- An instance of C1 (amended): a two-word request on a free channel. -/
theorem request_written_in_order_witness :
    writes (scmi_send idle_chan 0x14 0x07 (fun _ => 30) (2 : Nat) none none []).trace =
      writes [] ++ request_writes 0x14 0x07 (fun _ => 30) 2 :=
  (request_written_in_order idle_chan 0x14 0x07 (fun _ => 30) 2 none none [] (by decide)
    (idle_chan_free _ _ _ _ _)).1

/-- C1 fails as stated: with `2^30 - 1` payload words on a free channel the length
field receives `0` (not `4 + 4 * n`), payload word `2^30 - 6` is stored to
`channel_status` (offset `0x04`), and the stores are not the claimed list. -/
theorem request_order_wraps :
    (free_wait idle_chan 0x14 0x07 (fun i => i) (1073741823 : Nat) []).1 ≠ 0 ∧
    (SHMEM_LENGTH, 0) ∈
      writes (scmi_send idle_chan 0x14 0x07 (fun i => i) (1073741823 : Nat) none none []).trace ∧
    (SHMEM_CHAN_STATUS, 1073741818) ∈
      writes (scmi_send idle_chan 0x14 0x07 (fun i => i) (1073741823 : Nat) none none []).trace ∧
    writes (scmi_send idle_chan 0x14 0x07 (fun i => i) (1073741823 : Nat) none none []).trace ≠
      writes [] ++ request_writes 0x14 0x07 (fun i => i) 1073741823 := by
  have hfree := idle_chan_free 0x14 0x07 (fun i => i) (1073741823 : Nat) []
  have hw := scmi_send_writes idle_chan 0x14 0x07 (fun i => i) (1073741823 : Nat) none none []
  rw [if_neg hfree] at hw
  have hlen : to_u32 (int_add 4 (int_mul ((1073741823 : Nat) : Int) 4)) = 0 := by
    rw [length_word]
  have hoff : payload_off 1073741818 = SHMEM_CHAN_STATUS := by
    unfold payload_off int_mul to_s32 SHMEM_PAYLOAD SHMEM_CHAN_STATUS; omega
  have hcs : (SHMEM_CHAN_STATUS, 1073741818) ∈
      writes (scmi_send idle_chan 0x14 0x07 (fun i => i) (1073741823 : Nat) none none []).trace := by
    rw [hw, request_stores, Int.toNat_ofNat]
    refine List.mem_append_right _ (List.mem_append_left _ (List.mem_append_right _ ?_))
    exact List.mem_map.mpr ⟨1073741818, List.mem_range.mpr (by omega), by rw [hoff]⟩
  refine ⟨hfree, ?_, hcs, ?_⟩
  · rw [hw, request_stores, hlen]
    refine List.mem_append_right _ (List.mem_append_left _ (List.mem_append_left _ ?_))
    exact List.mem_cons_of_mem _ (List.mem_cons_self _ _)
  · intro h
    rw [h] at hcs
    exact chan_status_not_requested _ _ _ _ _ (by simpa [writes] using hcs)

/-! ## The response wait -/

theorem doorbell_once (proto msg_id : Nat) (payload : Nat → Nat) (n : Int) (hn : n ≤ 25) :
    (request_stores proto msg_id payload n).filter (fun p => p.1 = SHMEM_DOORBELL) =
      [(SHMEM_DOORBELL, 1)] := by
  have h : ((List.range n.toNat).map (fun i => (payload_off i, payload i))).filter
      (fun p => p.1 = SHMEM_DOORBELL) = [] := by
    rw [List.filter_eq_nil_iff]
    intro p hp
    obtain ⟨i, hi, rfl⟩ := List.mem_map.mp hp
    rw [List.mem_range] at hi
    have hi2 : i < 536870912 := by omega
    simp only [payload_off_small hi2, SHMEM_DOORBELL, decide_eq_true_eq]
    omega
  unfold request_stores
  rw [List.filter_append, List.filter_append, h]
  simp [SHMEM_FLAGS, SHMEM_LENGTH, SHMEM_HEADER, SHMEM_DOORBELL]

theorem doorbell_hit (proto msg_id : Nat) (payload : Nat → Nat) (n : Int) (hn : 26 ≤ n) :
    (SHMEM_DOORBELL, payload 25) ∈ request_stores proto msg_id payload n := by
  have h25 : payload_off 25 = SHMEM_DOORBELL := by
    rw [payload_off_small (by omega)]; rfl
  unfold request_stores
  refine List.mem_append_left _ (List.mem_append_right _ ?_)
  exact List.mem_map.mpr ⟨25, List.mem_range.mpr (by omega), by rw [h25]⟩

/-- C4 (amended): if the free wait succeeds and bit 0 of `channel_status` is clear on
each of the 100000 loads that follow the doorbell, the call returns `-ETIMEDOUT`
after exactly 100000 loads in the second wait (its own bound, not the 10000 of the
free wait) and prints the response-timeout line; the request is written once and
not re-sent, the store of `1` to the doorbell is the last store, the length field
and the payload are never loaded, and `response` and `*resp_words` are left alone.
The doorbell offset is stored to exactly once when `payload_words ≤ 25`; from 26
payload words on, payload word 25 is stored there too (`0x1C + 4 * 25 = 0x80`). -/
theorem response_timeout_after_100000_polls (chan : Chan) (proto msg_id : Nat)
    (payload : Nat → Nat) (n : Int) (response : Option (Nat → Nat)) (resp_words : Option Int)
    (tr : List Event)
    (hfree : (free_wait chan proto msg_id payload n tr).1 ≠ 0)
    (hnr : ∀ j, j < 100000 →
      readl chan (rung chan proto msg_id payload n tr ++
        polls chan j (rung chan proto msg_id payload n tr)) SHMEM_CHAN_STATUS % 2 = 0) :
    (scmi_send chan proto msg_id payload n response resp_words tr).ret = -ETIMEDOUT ∧
    (scmi_send chan proto msg_id payload n response resp_words tr).response = response ∧
    (scmi_send chan proto msg_id payload n response resp_words tr).resp_words = resp_words ∧
    (scmi_send chan proto msg_id payload n response resp_words tr).trace =
      rung chan proto msg_id payload n tr ++ polls chan 100000 (rung chan proto msg_id payload n tr) ++
        [Event.log Log.response_timeout] ∧
    (polls chan 100000 (rung chan proto msg_id payload n tr)).length = 100000 ∧
    (∀ e ∈ polls chan 100000 (rung chan proto msg_id payload n tr),
      ∃ v, e = Event.readl SHMEM_CHAN_STATUS v) ∧
    writes (scmi_send chan proto msg_id payload n response resp_words tr).trace =
      writes tr ++ request_stores proto msg_id payload n ∧
    (n ≤ 25 → (request_stores proto msg_id payload n).filter (fun p => p.1 = SHMEM_DOORBELL) =
      [(SHMEM_DOORBELL, 1)]) ∧
    (26 ≤ n → (SHMEM_DOORBELL, payload 25) ∈ request_stores proto msg_id payload n) ∧
    (∃ evs, reads (scmi_send chan proto msg_id payload n response resp_words tr).trace =
        reads tr ++ evs ∧ ∀ p ∈ evs, p.1 = SHMEM_CHAN_STATUS) ∧
    logs (scmi_send chan proto msg_id payload n response resp_words tr).trace =
      logs tr ++ [Log.response_timeout] := by
  have hw : response_wait chan proto msg_id payload n tr =
      (0, rung chan proto msg_id payload n tr ++
        polls chan 100000 (rung chan proto msg_id payload n tr)) :=
    wait_while_timeout chan chan_not_ready 100000 _ (by omega)
      (fun j hj => (chan_not_ready_iff _).mpr (hnr j hj))
  have h0 : (response_wait chan proto msg_id payload n tr).1 = 0 := by rw [hw]
  have hs := scmi_send_no_response chan proto msg_id payload n response resp_words tr hfree h0
  refine ⟨by rw [hs], by rw [hs], by rw [hs], by rw [hs, hw], polls_length _ _ _,
    polls_mem _ _ _, ?_, doorbell_once _ _ _ _, doorbell_hit _ _ _ _, ?_, ?_⟩
  · rw [scmi_send_writes, if_neg hfree]
  · obtain ⟨evs, h1, h2⟩ := reads_response_wait chan proto msg_id payload n tr
    refine ⟨evs, ?_, h2⟩
    rw [hs]
    simp only [reads_append, h1]
    simp [reads]
  · rw [scmi_send_logs, if_neg hfree, if_pos h0]

/-- An instance of C4 (amended): a channel that is free and never ready. -/
theorem response_timeout_after_100000_polls_witness :
    (scmi_send idle_chan 0x14 0x07 (fun _ => 30) 2 none none []).ret = -ETIMEDOUT :=
  (response_timeout_after_100000_polls idle_chan 0x14 0x07 (fun _ => 30) 2 none none []
    (idle_chan_free _ _ _ _ _) (fun _ _ => rfl)).1

/-- C4 fails as stated: with 26 payload words on a channel that is free and then
never ready, the call ends in the response timeout, yet the doorbell offset `0x80`
has been stored to twice: by payload word 25 (`0x1C + 4 * 25 = 0x80`) and by the
ring. -/
theorem doorbell_written_twice :
    (free_wait idle_chan 0x14 0x07 (fun _ => 5) 26 []).1 ≠ 0 ∧
    logs (scmi_send idle_chan 0x14 0x07 (fun _ => 5) 26 none none []).trace =
      [Log.response_timeout] ∧
    (writes (scmi_send idle_chan 0x14 0x07 (fun _ => 5) 26 none none []).trace).filter
      (fun p => p.1 = SHMEM_DOORBELL) = [(SHMEM_DOORBELL, 5), (SHMEM_DOORBELL, 1)] := by
  have hfree := idle_chan_free 0x14 0x07 (fun _ => 5) 26 []
  have hw := scmi_send_writes idle_chan 0x14 0x07 (fun _ => 5) 26 none none []
  rw [if_neg hfree] at hw
  have hl := scmi_send_logs idle_chan 0x14 0x07 (fun _ => 5) 26 none none []
  have h0 : (response_wait idle_chan 0x14 0x07 (fun _ => 5) 26 []).1 = 0 := by
    have := wait_while_timeout idle_chan chan_not_ready 100000
      (rung idle_chan 0x14 0x07 (fun _ => 5) 26 []) (by omega) (fun _ _ => idle_not_ready _ _)
    unfold response_wait
    rw [this]
  rw [if_neg hfree, if_pos h0] at hl
  refine ⟨hfree, hl, ?_⟩
  rw [hw]
  decide

/-! ## The response -/

theorem payload_offsets_small (k : Nat) (hk : k ≤ 536870912) :
    (List.range' 0 k).map payload_off =
      (List.range k).map (fun (i : Nat) => SHMEM_PAYLOAD + 4 * (i : Int)) := by
  rw [← List.range_eq_range']
  apply List.map_congr_left
  intro i hi
  rw [List.mem_range] at hi
  rw [payload_off_small (by omega)]; rfl

/-- C5 (amended): for every length field and every capacity `c ≥ 0` with a response
buffer, a completed call stores a word count `k` with `0 ≤ k ≤ c` in `*resp_words`
and changes nothing in `response` from index `k` on; after the response wait it
loads the status word at `0x1C` (whatever `c` is, also for `c = 0`), the length
field, and then exactly `k` payload words in the copy loop, which for `k ≤ 2^29`
are at the offsets `0x1C + 4 * i`, `i = 0 .. k - 1`; before that it loads
`channel_status` only. -/
theorem response_clamped_to_capacity (chan : Chan) (proto msg_id : Nat) (payload : Nat → Nat)
    (n : Int) (buf : Nat → Nat) (c : Int) (tr : List Event)
    (hc : 0 ≤ c) (hdone : completed chan proto msg_id payload n tr) :
    (stored_count chan proto msg_id payload n c tr : Int) ≤ c ∧
    (scmi_send chan proto msg_id payload n (some buf) (some c) tr).resp_words =
      some (stored_count chan proto msg_id payload n c tr : Int) ∧
    (∀ j, stored_count chan proto msg_id payload n c tr ≤ j →
      ((scmi_send chan proto msg_id payload n (some buf) (some c) tr).response.getD buf) j =
        buf j) ∧
    (scmi_send chan proto msg_id payload n (some buf) (some c) tr).trace =
      (response_wait chan proto msg_id payload n tr).2 ++
        [Event.readl SHMEM_PAYLOAD (status_word chan proto msg_id payload n tr),
          Event.readl SHMEM_LENGTH (length_field chan proto msg_id payload n tr)] ++
        copy_events chan (stored_count chan proto msg_id payload n c tr) 0
          (before_copy chan proto msg_id payload n tr) ∧
    (copy_events chan (stored_count chan proto msg_id payload n c tr) 0
      (before_copy chan proto msg_id payload n tr)).length =
      stored_count chan proto msg_id payload n c tr ∧
    (stored_count chan proto msg_id payload n c tr ≤ 536870912 →
      (reads (copy_events chan (stored_count chan proto msg_id payload n c tr) 0
        (before_copy chan proto msg_id payload n tr))).map Prod.fst =
        (List.range (stored_count chan proto msg_id payload n c tr)).map
          (fun (i : Nat) => SHMEM_PAYLOAD + 4 * (i : Int))) ∧
    (∃ evs, reads (response_wait chan proto msg_id payload n tr).2 = reads tr ++ evs ∧
      ∀ p ∈ evs, p.1 = SHMEM_CHAN_STATUS) := by
  have h0 := clamped_len_nonneg (length_field chan proto msg_id payload n tr) c hc
  have hle := clamped_len_le (length_field chan proto msg_id payload n tr) c
  have hk : (stored_count chan proto msg_id payload n c tr : Int) =
      clamped_len (length_field chan proto msg_id payload n tr) c := Int.toNat_of_nonneg h0
  have hs := scmi_send_reply chan proto msg_id payload n buf c tr hdone
  refine ⟨by omega, ?_, ?_, ?_, copy_events_length _ _ _ _, ?_,
    reads_response_wait chan proto msg_id payload n tr⟩
  · rw [hs, hk]
  · intro j hj
    rw [hs]
    dsimp only
    rw [Option.getD_some]
    exact read_response_outside _ _ _ _ _ j (Or.inr (by unfold stored_count at hj; omega))
  · rw [hs]
    simp only [stored_count, before_copy, after_status, List.append_assoc, List.singleton_append,
      List.cons_append, List.nil_append]
  · intro hsmall
    rw [copy_events_offsets, payload_offsets_small _ hsmall]

/-- An instance of C5 (amended): three words offered, capacity 2. -/
theorem response_clamped_to_capacity_witness :
    (stored_count (fake_chan 16 [0, 5, 6]) 0x14 0x06 (fun _ => 30) 1 2 [] : Int) ≤ 2 :=
  (response_clamped_to_capacity (fake_chan 16 [0, 5, 6]) 0x14 0x06 (fun _ => 30) 1 (fun _ => 9) 2 []
    (by decide) ⟨by decide, by decide⟩).1

/-- C5 fails as stated: with capacity `c = 0` a completed call stores the count `0`
and still loads the payload word at `0x1C` (the status), although no index `i < 0`
exists. -/
theorem status_loaded_with_zero_capacity :
    (free_wait (fake_chan 16 [0, 5, 6]) 0x14 0x06 (fun _ => 30) 1 []).1 ≠ 0 ∧
    (response_wait (fake_chan 16 [0, 5, 6]) 0x14 0x06 (fun _ => 30) 1 []).1 ≠ 0 ∧
    (scmi_send (fake_chan 16 [0, 5, 6]) 0x14 0x06 (fun _ => 30) 1
      (some fun _ => 9) (some 0) []).resp_words = some 0 ∧
    (SHMEM_PAYLOAD, 0) ∈ reads (scmi_send (fake_chan 16 [0, 5, 6]) 0x14 0x06 (fun _ => 30) 1
      (some fun _ => 9) (some 0) []).trace := by
  decide

/-- C9 (amended): when both waits succeed, the call returns the 32-bit word loaded
from the payload offset `0x1C` right after the response wait, reinterpreted as a
signed 32-bit integer and otherwise unchanged (converting back gives the same word,
the result is `0` exactly when the word is `0`), whatever the length field is.  When
the stored word count is at least 1, `response[0]` is the word a second load of
`0x1C` (the first of the copy loop) returns; it equals the status word whenever the
channel answers that second load like the first. -/
theorem status_passed_through (chan : Chan) (proto msg_id : Nat) (payload : Nat → Nat)
    (n : Int) (response : Option (Nat → Nat)) (resp_words : Option Int) (tr : List Event)
    (hdone : completed chan proto msg_id payload n tr) :
    (scmi_send chan proto msg_id payload n response resp_words tr).ret =
      to_s32 (status_word chan proto msg_id payload n tr) ∧
    to_u32 (scmi_send chan proto msg_id payload n response resp_words tr).ret =
      status_word chan proto msg_id payload n tr ∧
    ((scmi_send chan proto msg_id payload n response resp_words tr).ret = 0 ↔
      status_word chan proto msg_id payload n tr = 0) ∧
    (∀ buf c, response = some buf → resp_words = some c →
      ∀ k : Int, (scmi_send chan proto msg_id payload n response resp_words tr).resp_words = some k →
      1 ≤ k →
      ((scmi_send chan proto msg_id payload n response resp_words tr).response.getD buf) 0 =
        readl chan (before_copy chan proto msg_id payload n tr) SHMEM_PAYLOAD ∧
      (readl chan (before_copy chan proto msg_id payload n tr) SHMEM_PAYLOAD =
          status_word chan proto msg_id payload n tr →
        ((scmi_send chan proto msg_id payload n response resp_words tr).response.getD buf) 0 =
          status_word chan proto msg_id payload n tr)) := by
  have hret := scmi_send_ret chan proto msg_id payload n response resp_words tr hdone
  have hlt : status_word chan proto msg_id payload n tr < 4294967296 := readl_lt _ _ _
  refine ⟨hret, ?_, ?_, ?_⟩
  · rw [hret]; unfold to_u32 to_s32; omega
  · rw [hret]; unfold to_s32; omega
  · intro buf c hb hc k hk h1
    subst hb hc
    rw [scmi_send_reply _ _ _ _ _ _ _ _ hdone] at hk ⊢
    dsimp only at hk ⊢
    rw [Option.some.injEq] at hk
    rw [Option.getD_some]
    have hz := read_response_zero chan
      (clamped_len (length_field chan proto msg_id payload n tr) c).toNat buf
      (before_copy chan proto msg_id payload n tr) (by omega)
    exact ⟨hz, fun he => hz.trans he⟩

/-- An instance of C9 (amended) on a well-behaved fake firmware. -/
theorem status_passed_through_witness :
    (scmi_send (fake_chan 16 [0, 5, 6]) 0x14 0x06 (fun _ => 30) 1 (some fun _ => 9) (some 4) []).ret =
      to_s32 (status_word (fake_chan 16 [0, 5, 6]) 0x14 0x06 (fun _ => 30) 1 []) :=
  (status_passed_through (fake_chan 16 [0, 5, 6]) 0x14 0x06 (fun _ => 30) 1
    (some fun _ => 9) (some 4) [] ⟨by decide, by decide⟩).1

/-- C9 fails as stated: on a channel whose word at `0x1C` reads `0` at the status
load and `7` at the copy loop's load, a completed call returns status `0` and stores
the count `1`, but `response[0]` is `7`. -/
theorem response_zero_differs_from_status :
    (free_wait unstable_chan 0x14 0x06 (fun _ => 30) 1 []).1 ≠ 0 ∧
    (response_wait unstable_chan 0x14 0x06 (fun _ => 30) 1 []).1 ≠ 0 ∧
    status_word unstable_chan 0x14 0x06 (fun _ => 30) 1 [] = 0 ∧
    (scmi_send unstable_chan 0x14 0x06 (fun _ => 30) 1 (some fun _ => 9) (some 4) []).ret = 0 ∧
    (scmi_send unstable_chan 0x14 0x06 (fun _ => 30) 1
      (some fun _ => 9) (some 4) []).resp_words = some 1 ∧
    (scmi_send unstable_chan 0x14 0x06 (fun _ => 30) 1
      (some fun _ => 9) (some 4) []).response.map (fun b => b 0) = some 7 := by
  decide

/-- C10 (amended): in a completed call with a response buffer and capacity `c`, the
stored word count is `min(((L - 4) mod 2^32) / 4, c)` for the length field `L` read
back; so it is `min((L - 4) / 4, c)` for `L ≥ 4`, and for `L` in `0 .. 3`, where the
subtraction wraps, it is `min(2^30 - 1, c)`: the full capacity `c` whenever
`c ≤ 2^30 - 1`. -/
theorem response_word_count (chan : Chan) (proto msg_id : Nat) (payload : Nat → Nat)
    (n : Int) (buf : Nat → Nat) (c : Int) (tr : List Event)
    (hdone : completed chan proto msg_id payload n tr) :
    (scmi_send chan proto msg_id payload n (some buf) (some c) tr).resp_words =
      some (min ((((length_field chan proto msg_id payload n tr + 4294967296 - 4) %
        4294967296 / 4 : Nat) : Int)) c) ∧
    (4 ≤ length_field chan proto msg_id payload n tr →
      (scmi_send chan proto msg_id payload n (some buf) (some c) tr).resp_words =
        some (min (((length_field chan proto msg_id payload n tr - 4) / 4 : Nat) : Int) c)) ∧
    (length_field chan proto msg_id payload n tr < 4 →
      (scmi_send chan proto msg_id payload n (some buf) (some c) tr).resp_words =
        some (min 1073741823 c)) ∧
    (length_field chan proto msg_id payload n tr < 4 → c ≤ 1073741823 →
      (scmi_send chan proto msg_id payload n (some buf) (some c) tr).resp_words = some c) := by
  have hlt : length_field chan proto msg_id payload n tr < 4294967296 := readl_lt _ _ _
  rw [scmi_send_reply _ _ _ _ _ _ _ _ hdone]
  simp only [Option.some.injEq, clamped_len_eq, u32_sub]
  refine ⟨by norm_num, ?_, ?_, ?_⟩
  · intro h; omega
  · intro h; omega
  · intro h hc; omega

/-- An instance of C10 (amended): length field 2, capacity 4. -/
theorem response_word_count_witness :
    (scmi_send (fake_chan 2 [0, 5, 6]) 0x14 0x06 (fun _ => 30) 1
      (some fun _ => 9) (some 4) []).resp_words = some 4 :=
  (response_word_count (fake_chan 2 [0, 5, 6]) 0x14 0x06 (fun _ => 30) 1 (fun _ => 9) 4 []
    ⟨by decide, by decide⟩).2.2.2 (by decide) (by decide)

/-- C10 fails as stated: with the length field `0` and the capacity `c = 2^30` a
completed call stores the count `2^30 - 1`, not `c`. -/
theorem wrapped_count_below_capacity :
    (free_wait (fake_chan 0 []) 0x14 0x06 (fun _ => 30) 1 []).1 ≠ 0 ∧
    (response_wait (fake_chan 0 []) 0x14 0x06 (fun _ => 30) 1 []).1 ≠ 0 ∧
    length_field (fake_chan 0 []) 0x14 0x06 (fun _ => 30) 1 [] = 0 ∧
    (scmi_send (fake_chan 0 []) 0x14 0x06 (fun _ => 30) 1
      (some fun _ => 9) (some 1073741824) []).resp_words = some 1073741823 := by
  decide

/-! ## Payload size -/

theorem scmi_send_outcome (chan : Chan) (proto msg_id : Nat) (payload : Nat → Nat) (n : Int)
    (response : Option (Nat → Nat)) (resp_words : Option Int) (tr : List Event) :
    ((free_wait chan proto msg_id payload n tr).1 = 0 ∧
      (scmi_send chan proto msg_id payload n response resp_words tr).ret = -ETIMEDOUT ∧
      logs (scmi_send chan proto msg_id payload n response resp_words tr).trace =
        logs tr ++ [Log.busy_timeout]) ∨
    ((free_wait chan proto msg_id payload n tr).1 ≠ 0 ∧
      (response_wait chan proto msg_id payload n tr).1 = 0 ∧
      (scmi_send chan proto msg_id payload n response resp_words tr).ret = -ETIMEDOUT ∧
      logs (scmi_send chan proto msg_id payload n response resp_words tr).trace =
        logs tr ++ [Log.response_timeout]) ∨
    (completed chan proto msg_id payload n tr ∧
      (scmi_send chan proto msg_id payload n response resp_words tr).ret =
        to_s32 (status_word chan proto msg_id payload n tr) ∧
      logs (scmi_send chan proto msg_id payload n response resp_words tr).trace = logs tr) := by
  by_cases h1 : (free_wait chan proto msg_id payload n tr).1 = 0
  · refine Or.inl ⟨h1, by rw [scmi_send_busy _ _ _ _ _ _ _ _ h1], ?_⟩
    rw [scmi_send_logs, if_pos h1]
  · by_cases h2 : (response_wait chan proto msg_id payload n tr).1 = 0
    · refine Or.inr (Or.inl ⟨h1, h2, by rw [scmi_send_no_response _ _ _ _ _ _ _ _ h1 h2], ?_⟩)
      rw [scmi_send_logs, if_neg h1, if_pos h2]
    · refine Or.inr (Or.inr ⟨⟨h1, h2⟩, scmi_send_ret _ _ _ _ _ _ _ _ ⟨h1, h2⟩, ?_⟩)
      rw [scmi_send_logs, if_neg h1, if_neg h2, List.append_nil]

/-- C6 (amended): `scmi_send` checks no payload size and has no payload-too-large
result.  For every payload length `n ≤ 2^29` a call ends in one of three ways: busy
timeout, response timeout (both `-ETIMEDOUT`, each with its line), or completion
with the status word as result; whenever the free wait succeeds, all `n` payload
words are stored at `0x1C + 4 * i` and the doorbell is rung.  For `n ≤ 57` every
store lies inside the `0x100`-byte region; for `n > 57` payload word 57 is stored at
offset `0x100`, just past it. -/
theorem payload_size_not_checked (chan : Chan) (proto msg_id : Nat) (payload : Nat → Nat)
    (n : Nat) (response : Option (Nat → Nat)) (resp_words : Option Int) (tr : List Event)
    (hn : n ≤ 536870912) :
    (((free_wait chan proto msg_id payload n tr).1 = 0 ∧
        (scmi_send chan proto msg_id payload n response resp_words tr).ret = -ETIMEDOUT ∧
        logs (scmi_send chan proto msg_id payload n response resp_words tr).trace =
          logs tr ++ [Log.busy_timeout]) ∨
      ((free_wait chan proto msg_id payload n tr).1 ≠ 0 ∧
        (response_wait chan proto msg_id payload n tr).1 = 0 ∧
        (scmi_send chan proto msg_id payload n response resp_words tr).ret = -ETIMEDOUT ∧
        logs (scmi_send chan proto msg_id payload n response resp_words tr).trace =
          logs tr ++ [Log.response_timeout]) ∨
      (completed chan proto msg_id payload n tr ∧
        (scmi_send chan proto msg_id payload n response resp_words tr).ret =
          to_s32 (status_word chan proto msg_id payload n tr) ∧
        logs (scmi_send chan proto msg_id payload n response resp_words tr).trace = logs tr)) ∧
    ((free_wait chan proto msg_id payload n tr).1 ≠ 0 →
      writes (scmi_send chan proto msg_id payload n response resp_words tr).trace =
        writes tr ++ request_writes proto msg_id payload n) ∧
    (n ≤ 57 → ∀ p ∈ request_writes proto msg_id payload n, 0 ≤ p.1 ∧ p.1 + 4 ≤ SHMEM_SIZE) ∧
    (57 < n → (SHMEM_SIZE, payload 57) ∈ request_writes proto msg_id payload n) := by
  refine ⟨scmi_send_outcome _ _ _ _ _ _ _ _, ?_, ?_, ?_⟩
  · intro hfree
    rw [scmi_send_writes, if_neg hfree, request_stores_eq _ _ _ _ hn]
  · intro h57 p hp
    unfold request_writes at hp
    rcases List.mem_append.mp hp with hp | hp
    · rcases List.mem_append.mp hp with hp | hp
      · simp only [List.mem_cons, List.mem_singleton, List.not_mem_nil, or_false] at hp
        rcases hp with rfl | rfl | rfl <;>
          simp [SHMEM_FLAGS, SHMEM_LENGTH, SHMEM_HEADER, SHMEM_SIZE]
      · obtain ⟨i, hi, rfl⟩ := List.mem_map.mp hp
        rw [List.mem_range] at hi
        simp only [SHMEM_PAYLOAD, SHMEM_SIZE]
        omega
    · simp only [List.mem_singleton] at hp
      subst hp
      simp [SHMEM_DOORBELL, SHMEM_SIZE]
  · intro h57
    unfold request_writes
    refine List.mem_append_left _ (List.mem_append_right _ ?_)
    exact List.mem_map.mpr ⟨57, List.mem_range.mpr h57, by simp [SHMEM_PAYLOAD, SHMEM_SIZE]⟩

/-- An instance of C6 (amended): 58 payload words. -/
theorem payload_size_not_checked_witness :
    (SHMEM_SIZE, 57) ∈ request_writes 0x14 0x07 (fun i => i) 58 :=
  (payload_size_not_checked (fake_chan 4 [0]) 0x14 0x07 (fun i => i) 58 none none []
    (by decide)).2.2.2 (by decide)

/-- C6 fails as stated: a payload of 58 words, one more than fits below `0x100`, is
not rejected; on a well-behaved channel the call stores payload word 57 at offset
`0x100`, completes and returns status `0`. -/
theorem oversized_payload_is_sent :
    (SHMEM_SIZE, 57) ∈
      writes (scmi_send (fake_chan 4 [0]) 0x14 0x07 (fun i => i) 58 none none []).trace ∧
    (scmi_send (fake_chan 4 [0]) 0x14 0x07 (fun i => i) 58 none none []).ret = 0 ∧
    logs (scmi_send (fake_chan 4 [0]) 0x14 0x07 (fun i => i) 58 none none []).trace = [] := by
  decide

/-! ## The sequencer -/

theorem config_lines_append (a b : List Event) :
    config_lines (a ++ b) = config_lines a ++ config_lines b := by
  simp [config_lines, logs_append]

theorem config_lines_scmi_send (chan : Chan) (proto msg_id : Nat) (payload : Nat → Nat) (n : Int)
    (response : Option (Nat → Nat)) (resp_words : Option Int) (tr : List Event) :
    config_lines (scmi_send chan proto msg_id payload n response resp_words tr).trace =
      config_lines tr := by
  unfold config_lines
  rw [scmi_send_logs, List.filter_append]
  split
  · simp
  · split <;> simp

theorem payload_list_config (p : Nat → Nat) (clk : Nat) :
    payload_list (Function.update (Function.update p 0 clk) 1 1) 2 = [clk, 1] := by
  simp [payload_list, List.range_succ]

theorem payload_list_rate (p : Nat → Nat) (clk : Nat) :
    payload_list (Function.update p 0 clk) 1 = [clk] := by
  simp [payload_list, List.range_succ]

theorem calls_config_step (chan : Chan) (clk : Nat) (name : String) (s : InitState) :
    calls (config_step chan clk name s).trace =
      calls s.trace ++ [(SCMI_PROTO_CLOCK, SCMI_CLK_CONFIG_SET, [clk, 1], 2)] := by
  have h := scmi_send_calls chan SCMI_PROTO_CLOCK SCMI_CLK_CONFIG_SET
    (Function.update (Function.update s.payload 0 clk) 1 1) 2 (some s.resp) (some 4) s.trace
  rw [payload_list_config] at h
  unfold config_step
  simp only [config_call]
  split
  · simp only [calls_append, h]; simp [calls]
  · simp only [calls_append, h]; simp [calls]

theorem calls_rate_step (chan : Chan) (clk : Nat) (name : String) (s : InitState) :
    calls (rate_step chan clk name s).trace =
      calls s.trace ++ [(SCMI_PROTO_CLOCK, SCMI_CLK_RATE_GET, [clk], 1)] := by
  have h := scmi_send_calls chan SCMI_PROTO_CLOCK SCMI_CLK_RATE_GET
    (Function.update s.payload 0 clk) 1 (some s.resp) (some 4) s.trace
  rw [payload_list_rate] at h
  unfold rate_step
  simp only [rate_call]
  split
  · simp only [calls_append, h]; simp [calls]
  · simp only [calls_append, h]; simp [calls]

theorem config_lines_config_step (chan : Chan) (clk : Nat) (name : String) (s : InitState) :
    config_lines (config_step chan clk name s).trace =
      config_lines s.trace ++ config_report (clk, name) (config_call chan clk s).ret := by
  have h : config_lines (config_call chan clk s).trace = config_lines s.trace :=
    config_lines_scmi_send _ _ _ _ _ _ _ _
  unfold config_step config_report
  simp only
  split
  · simp only [config_lines_append, h]; simp [config_lines, logs]
  · simp only [config_lines_append, h]; simp [config_lines, logs]

theorem config_lines_rate_step (chan : Chan) (clk : Nat) (name : String) (s : InitState) :
    config_lines (rate_step chan clk name s).trace = config_lines s.trace := by
  have h : config_lines (rate_call chan clk s).trace = config_lines s.trace :=
    config_lines_scmi_send _ _ _ _ _ _ _ _
  unfold rate_step
  simp only
  split
  · simp only [config_lines_append, h]; simp [config_lines, logs]
  · simp only [config_lines_append, h]; simp [config_lines, logs]

set_option maxRecDepth 1000000 in
theorem clock31_scenario_logs :
    logs (gpu_clk_enable_init clock31_chan true (fun _ => 0) (fun _ => 0)).2 =
      [Log.mapped 0,
        Log.config_set 30 "gpuclk_400M" 0,
        Log.config_set 31 "gpu_top" 2, Log.failed 2,
        Log.config_set 32 "gpu_core" 0,
        Log.config_set 230 "gpupll_top" 0,
        Log.config_set 231 "gpupll_core" 0,
        Log.config_set 272 "gpuclk_200M" 0,
        Log.rate 30 "gpuclk_400M" 5368709120,
        Log.rate 31 "gpu_top" 5368709120,
        Log.rate 32 "gpu_core" 5368709120,
        Log.rate 230 "gpupll_top" 5368709120,
        Log.rate 231 "gpupll_core" 5368709120,
        Log.rate 272 "gpuclk_200M" 5368709120,
        Log.done] := by
  decide

set_option maxRecDepth 1000000 in
theorem clock31_scenario_writes :
    (writes (gpu_clk_enable_init clock31_chan true (fun _ => 0) (fun _ => 0)).2).take 18 =
      [(SHMEM_FLAGS, 0), (SHMEM_LENGTH, 12), (SHMEM_HEADER, SCMI_HDR 0x14 0x07 0),
        (SHMEM_PAYLOAD, 30), (SHMEM_PAYLOAD + 4, 1), (SHMEM_DOORBELL, 1),
        (SHMEM_FLAGS, 0), (SHMEM_LENGTH, 12), (SHMEM_HEADER, SCMI_HDR 0x14 0x07 0),
        (SHMEM_PAYLOAD, 31), (SHMEM_PAYLOAD + 4, 1), (SHMEM_DOORBELL, 1),
        (SHMEM_FLAGS, 0), (SHMEM_LENGTH, 12), (SHMEM_HEADER, SCMI_HDR 0x14 0x07 0),
        (SHMEM_PAYLOAD, 32), (SHMEM_PAYLOAD + 4, 1), (SHMEM_DOORBELL, 1)] := by
  decide

/-- C7: when the region is mapped, `gpu_clk_enable_init` returns `0` after exactly 12
`scmi_send` calls, whatever the channel answers: `CLOCK_CONFIG_SET` (protocol `0x14`,
message `0x07`) with payload `[id, 1]` for the ids 30, 31, 32, 230, 231, 272 in this
order, then `CLOCK_RATE_GET` (message `0x06`) with payload `[id]` for the same ids.
The lines of the first loop are, clock by clock, the status line of that clock with
the value its own `scmi_send` call returned (the call made in the state the loop has
reached by then), followed by a `FAILED` line with that value exactly when it is
non-zero.  On a fake firmware that fails the configure command of clock 31 with
status `0x2`, only clock 31 is reported as failed, and the request written for clock
32 is the same as for the clocks before it (flags, length 12, header, `[32, 1]`,
doorbell). -/
theorem init_issues_twelve_commands (chan : Chan) (payload0 resp0 : Nat → Nat) :
    (gpu_clk_enable_init chan true payload0 resp0).1 = 0 ∧
    calls (gpu_clk_enable_init chan true payload0 resp0).2 =
      [(0x14, 0x07, [30, 1], 2), (0x14, 0x07, [31, 1], 2), (0x14, 0x07, [32, 1], 2),
        (0x14, 0x07, [230, 1], 2), (0x14, 0x07, [231, 1], 2), (0x14, 0x07, [272, 1], 2),
        (0x14, 0x06, [30], 1), (0x14, 0x06, [31], 1), (0x14, 0x06, [32], 1),
        (0x14, 0x06, [230], 1), (0x14, 0x06, [231], 1), (0x14, 0x06, [272], 1)] ∧
    config_lines (gpu_clk_enable_init chan true payload0 resp0).2 =
      config_report (30, "gpuclk_400M")
        (config_call chan 30 (config_state chan payload0 resp0 0)).ret ++
      config_report (31, "gpu_top")
        (config_call chan 31 (config_state chan payload0 resp0 1)).ret ++
      config_report (32, "gpu_core")
        (config_call chan 32 (config_state chan payload0 resp0 2)).ret ++
      config_report (230, "gpupll_top")
        (config_call chan 230 (config_state chan payload0 resp0 3)).ret ++
      config_report (231, "gpupll_core")
        (config_call chan 231 (config_state chan payload0 resp0 4)).ret ++
      config_report (272, "gpuclk_200M")
        (config_call chan 272 (config_state chan payload0 resp0 5)).ret ∧
    logs (gpu_clk_enable_init clock31_chan true (fun _ => 0) (fun _ => 0)).2 =
      [Log.mapped 0,
        Log.config_set 30 "gpuclk_400M" 0,
        Log.config_set 31 "gpu_top" 2, Log.failed 2,
        Log.config_set 32 "gpu_core" 0,
        Log.config_set 230 "gpupll_top" 0,
        Log.config_set 231 "gpupll_core" 0,
        Log.config_set 272 "gpuclk_200M" 0,
        Log.rate 30 "gpuclk_400M" 5368709120,
        Log.rate 31 "gpu_top" 5368709120,
        Log.rate 32 "gpu_core" 5368709120,
        Log.rate 230 "gpupll_top" 5368709120,
        Log.rate 231 "gpupll_core" 5368709120,
        Log.rate 272 "gpuclk_200M" 5368709120,
        Log.done] ∧
    (writes (gpu_clk_enable_init clock31_chan true (fun _ => 0) (fun _ => 0)).2).take 18 =
      [(SHMEM_FLAGS, 0), (SHMEM_LENGTH, 12), (SHMEM_HEADER, SCMI_HDR 0x14 0x07 0),
        (SHMEM_PAYLOAD, 30), (SHMEM_PAYLOAD + 4, 1), (SHMEM_DOORBELL, 1),
        (SHMEM_FLAGS, 0), (SHMEM_LENGTH, 12), (SHMEM_HEADER, SCMI_HDR 0x14 0x07 0),
        (SHMEM_PAYLOAD, 31), (SHMEM_PAYLOAD + 4, 1), (SHMEM_DOORBELL, 1),
        (SHMEM_FLAGS, 0), (SHMEM_LENGTH, 12), (SHMEM_HEADER, SCMI_HDR 0x14 0x07 0),
        (SHMEM_PAYLOAD, 32), (SHMEM_PAYLOAD + 4, 1), (SHMEM_DOORBELL, 1)] := by
  refine ⟨rfl, ?_, ?_, clock31_scenario_logs, clock31_scenario_writes⟩
  · simp only [gpu_clk_enable_init, if_true, gpu_clk_ids, gpu_clk_names, List.zip_cons_cons,
      List.zip_nil_right, config_pass, rate_pass, calls_append, calls_rate_step,
      calls_config_step]
    simp [calls, SCMI_PROTO_CLOCK, SCMI_CLK_CONFIG_SET, SCMI_CLK_RATE_GET]
  · have h0 : ∀ v : Nat, config_lines
        [Event.readl SHMEM_CHAN_STATUS v, Event.log (Log.mapped v)] = [] := fun _ => rfl
    have h : config_lines (gpu_clk_enable_init chan true payload0 resp0).2 =
        config_lines (gpu_clk_enable_init chan true payload0 resp0).2 := rfl
    conv at h =>
      rhs
      simp only [gpu_clk_enable_init, if_true, gpu_clk_ids, gpu_clk_names, List.zip_cons_cons,
        List.zip_nil_right, config_pass, rate_pass, config_lines_append, config_lines_rate_step,
        config_lines_config_step, h0, List.nil_append]
    have h1 : config_lines [Event.log Log.done] = [] := rfl
    rw [h1, List.append_nil] at h
    simp only [config_state, gpu_clk_ids, gpu_clk_names, List.zip_cons_cons, List.zip_nil_right,
      List.take_succ_cons, List.take_zero, config_pass]
    exact h

/-! ## The rate -/

theorem rate_of_eq (resp : Nat → Nat) (h1 : resp 1 < 4294967296) (h2 : resp 2 < 4294967296) :
    rate_of resp = resp 2 * 4294967296 + resp 1 := by
  have h1' : resp 1 < 2 ^ 32 := by norm_num; exact h1
  have h : 2 ^ 32 * resp 2 + resp 1 = 2 ^ 32 * resp 2 ||| resp 1 :=
    Nat.mul_add_lt_is_or h1' (resp 2)
  have hm : resp 2 * 2 ^ 32 % 18446744073709551616 = 2 ^ 32 * resp 2 := by omega
  unfold rate_of
  rw [Nat.shiftLeft_eq, hm, ← h]
  omega

theorem rate_call_completed (chan : Chan) (clk : Nat) (s : InitState)
    (h : (rate_call chan clk s).ret = 0) :
    completed chan SCMI_PROTO_CLOCK SCMI_CLK_RATE_GET (Function.update s.payload 0 clk) 1
      s.trace := by
  rcases scmi_send_outcome chan SCMI_PROTO_CLOCK SCMI_CLK_RATE_GET
    (Function.update s.payload 0 clk) 1 (some s.resp) (some 4) s.trace with h1 | h1 | h1
  · unfold rate_call at h; rw [h1.2.1] at h; simp [ETIMEDOUT] at h
  · unfold rate_call at h; rw [h1.2.2.1] at h; simp [ETIMEDOUT] at h
  · exact h1.1

theorem rate_call_words (chan : Chan) (clk : Nat) (s : InitState)
    (hret : (rate_call chan clk s).ret = 0)
    (hw : 3 ≤ (rate_call chan clk s).resp_words.getD 4) (j : Nat) (hj : j < 3) :
    ((rate_call chan clk s).response.getD s.resp) j < 4294967296 := by
  have hdone := rate_call_completed chan clk s hret
  have hr : rate_call chan clk s = _ := scmi_send_reply chan SCMI_PROTO_CLOCK SCMI_CLK_RATE_GET
    (Function.update s.payload 0 clk) 1 s.resp 4 s.trace hdone
  have hresp : (rate_call chan clk s).response = _ := congrArg SendResult.response hr
  have hwords : (rate_call chan clk s).resp_words = _ := congrArg SendResult.resp_words hr
  rw [hwords] at hw
  rw [hresp]
  dsimp only at hw ⊢
  rw [Option.getD_some] at hw ⊢
  have hk : 3 ≤ (clamped_len (length_field chan SCMI_PROTO_CLOCK SCMI_CLK_RATE_GET
      (Function.update s.payload 0 clk) 1 s.trace) 4).toNat := by omega
  exact read_response_inside_lt chan _ 0 s.resp _ j (Nat.zero_le j) (by omega)

/-- C8: when the rate-read returns `0` and at least three response words were
stored, the words `low = resp[1]` and `high = resp[2]` are 32-bit values loaded by
this call and the reported rate is `high * 2^32 + low`, without truncation (it is
below `2^64`); otherwise no rate is computed and the returned status is reported.
The response `[0, 0x40000000, 0x1]` gives the rate `0x140000000 = 5368709120`. -/
theorem rate_decoded_low_then_high (chan : Chan) (clk : Nat) (name : String) (s : InitState) :
    ((rate_call chan clk s).ret = 0 → 3 ≤ (rate_call chan clk s).resp_words.getD 4 →
      ((rate_call chan clk s).response.getD s.resp) 1 < 4294967296 ∧
      ((rate_call chan clk s).response.getD s.resp) 2 < 4294967296 ∧
      (rate_step chan clk name s).trace = (rate_call chan clk s).trace ++
        [Event.log (Log.rate clk name
          (((rate_call chan clk s).response.getD s.resp) 2 * 4294967296 +
            ((rate_call chan clk s).response.getD s.resp) 1))] ∧
      ((rate_call chan clk s).response.getD s.resp) 2 * 4294967296 +
        ((rate_call chan clk s).response.getD s.resp) 1 < 18446744073709551616) ∧
    (¬ ((rate_call chan clk s).ret = 0 ∧ 3 ≤ (rate_call chan clk s).resp_words.getD 4) →
      (rate_step chan clk name s).trace = (rate_call chan clk s).trace ++
        [Event.log (Log.rate_get_status clk (rate_call chan clk s).ret)]) ∧
    logs (rate_step (fake_chan 16 [0, 0x40000000, 0x1]) 30 "gpuclk_400M"
      { payload := fun _ => 0, resp := fun _ => 0, trace := [] }).trace =
      [Log.rate 30 "gpuclk_400M" 0x140000000] ∧
    (0x140000000 : Nat) = 5368709120 ∧ (4294967296 : Nat) = 2 ^ 32 ∧
    (18446744073709551616 : Nat) = 2 ^ 64 := by
  refine ⟨?_, ?_, by decide, by decide, by decide, by decide⟩
  · intro hret hw
    have h1 := rate_call_words chan clk s hret hw 1 (by omega)
    have h2 := rate_call_words chan clk s hret hw 2 (by omega)
    refine ⟨h1, h2, ?_, by omega⟩
    unfold rate_step
    simp only
    rw [if_pos ⟨hret, hw⟩, rate_of_eq _ h1 h2]
  · intro hn
    unfold rate_step
    simp only
    rw [if_neg hn]

/-- An instance of C8: the response `[0, 0x40000000, 0x1]` for clock 30. -/
theorem rate_decoded_low_then_high_witness :
    ((rate_call (fake_chan 16 [0, 0x40000000, 0x1]) 30
        { payload := fun _ => 0, resp := fun _ => 0, trace := [] }).response.getD
      fun _ => 0) 1 < 4294967296 :=
  ((rate_decoded_low_then_high (fake_chan 16 [0, 0x40000000, 0x1]) 30 "gpuclk_400M"
    { payload := fun _ => 0, resp := fun _ => 0, trace := [] }).1 (by decide) (by decide)).1

end GpuClkEnable
